import Mathlib

/-!
# kodbank-app: the account ledger and the auth handlers

A shallow embedding of `server/controllers/accountController.js`
(`deposit`, `withdraw`, `transfer`, `updateProfile`, `changePassword`) and of
`server/controllers/authController.js` (`register`, `login`), together with the
language primitives their validation relies on (`!x`, `isNaN`, `<=`,
`parseFloat`, `!==`, `.length`, the email pattern).

Conventions of the embedding.

* A JavaScript Number is a `JSNum`: a finite value, `NaN`, `+Infinity` or
  `-Infinity`.  Finite values are exact rationals: the rounding and the finite
  range of binary64 are outside the model (the specification speaks of
  decimals), and `-0` is identified with `0`.
* A request body member is a `JsValue` (what `JSON.parse` can produce, or
  `undefined` for an absent member).
* Handlers are functions from the database and the request to an `Outcome`:
  the database afterwards, the persistence operations performed in order, and
  the HTTP response.
-/

namespace Kodbank

/-! ## Numbers -/

/-- A JavaScript Number value. -/
inductive JSNum where
  | fin (q : ℚ)
  | nan
  | posInf
  | negInf
deriving DecidableEq

namespace JSNum

/-- Number addition (`+` on two Numbers).  A finite sum is the exact sum: the
rounding of binary64 and its overflow to an infinity are not modelled. -/
def add : JSNum → JSNum → JSNum
  | fin a, fin b => fin (a + b)
  | nan, _ => nan
  | _, nan => nan
  | posInf, negInf => nan
  | negInf, posInf => nan
  | posInf, _ => posInf
  | _, posInf => posInf
  | negInf, _ => negInf
  | _, negInf => negInf

/-- Unary minus. -/
def neg : JSNum → JSNum
  | fin a => fin (-a)
  | nan => nan
  | posInf => negInf
  | negInf => posInf

/-- Number subtraction (`-` on two Numbers).  A finite difference is the exact
difference: the rounding of binary64 is not modelled. -/
def sub (x y : JSNum) : JSNum := add x (neg y)

/-- The relational operator `x < y` on Numbers (false when either is NaN). -/
def lt : JSNum → JSNum → Bool
  | fin a, fin b => decide (a < b)
  | nan, _ => false
  | _, nan => false
  | negInf, negInf => false
  | negInf, _ => true
  | _, negInf => false
  | posInf, _ => false
  | _, posInf => true

/-- The relational operator `x <= y` on Numbers (false when either is NaN). -/
def le : JSNum → JSNum → Bool
  | fin a, fin b => decide (a ≤ b)
  | nan, _ => false
  | _, nan => false
  | negInf, _ => true
  | _, posInf => true
  | posInf, _ => false
  | _, negInf => false

/-- The result of `isNaN` on a Number. -/
def isNaN : JSNum → Bool
  | nan => true
  | _ => false

/-- The result of `Number.isFinite`. -/
def isFinite : JSNum → Bool
  | fin _ => true
  | _ => false

/-- ToBoolean on a Number: `0` and `NaN` are falsy. -/
def toBoolean : JSNum → Bool
  | fin q => decide (q ≠ 0)
  | nan => false
  | _ => true

end JSNum

/-! ## Strings as numeric literals -/

/-- The code points of `StrWhiteSpaceChar` (WhiteSpace and LineTerminator). -/
def isStrWhiteSpaceChar (c : Char) : Bool :=
  let n := c.toNat
  n = 0x09 || n = 0x0A || n = 0x0B || n = 0x0C || n = 0x0D || n = 0x20 ||
  n = 0xA0 || n = 0x1680 || (0x2000 ≤ n && n ≤ 0x200A) || n = 0x2028 ||
  n = 0x2029 || n = 0x202F || n = 0x205F || n = 0x3000 || n = 0xFEFF

/-- A decimal digit. -/
def isDecimalDigit (c : Char) : Bool := 48 ≤ c.toNat && c.toNat ≤ 57

/-- The value of a digit in a radix up to 16, when it is one. -/
def radixDigit (radix : Nat) (c : Char) : Option Nat :=
  let n := c.toNat
  let v : Option Nat :=
    if 48 ≤ n ∧ n ≤ 57 then some (n - 48)
    else if 97 ≤ n ∧ n ≤ 102 then some (n - 87)
    else if 65 ≤ n ∧ n ≤ 70 then some (n - 55)
    else none
  match v with
  | some d => if d < radix then some d else none
  | none => none

/-- The mathematical value of a run of digits in the given radix. -/
def digitsValue (radix : Nat) (ds : List Char) : Nat :=
  ds.foldl (fun acc c => radix * acc + (radixDigit radix c).getD 0) 0

/-- The grammar's `ExponentPart` at the head of the input: its value and
the input that follows; `none` when the input does not start with one. -/
def scanExponent : List Char → Option (Int × List Char)
  | [] => none
  | e :: rest =>
    if e = 'e' ∨ e = 'E' then
      let signed : Bool × List Char :=
        match rest with
        | '+' :: r => (false, r)
        | '-' :: r => (true, r)
        | r => (false, r)
      let ds := signed.2.takeWhile isDecimalDigit
      if ds = [] then none
      else
        let v : Int := digitsValue 10 ds
        some (if signed.1 then -v else v, signed.2.dropWhile isDecimalDigit)
    else none

/-- The longest prefix of the input that is a `StrUnsignedDecimalLiteral`:
its value and the remaining input. -/
def scanUnsigned (cs : List Char) : Option (JSNum × List Char) :=
  if "Infinity".toList.isPrefixOf cs then some (JSNum.posInf, cs.drop 8)
  else
    let ip := cs.takeWhile isDecimalDigit
    let r1 := cs.dropWhile isDecimalDigit
    let frac : List Char × List Char :=
      match r1 with
      | '.' :: r => (r.takeWhile isDecimalDigit, r.dropWhile isDecimalDigit)
      | _ => ([], r1)
    if ip = [] ∧ frac.1 = [] then none
    else
      let mant : ℚ := digitsValue 10 (ip ++ frac.1)
      match scanExponent frac.2 with
      | some (e, r3) => some (JSNum.fin (mant * (10 : ℚ) ^ (e - frac.1.length)), r3)
      | none => some (JSNum.fin (mant * (10 : ℚ) ^ (-(frac.1.length : Int))), frac.2)

/-- The longest prefix of the input that is a `StrDecimalLiteral` (an
optional sign, then an unsigned literal). -/
def scanDecimal : List Char → Option (JSNum × List Char)
  | '+' :: r => scanUnsigned r
  | '-' :: r => (scanUnsigned r).map (fun p => (JSNum.neg p.1, p.2))
  | cs => scanUnsigned cs

/-- A `NonDecimalIntegerLiteral` body in the given radix, followed only by
white space. -/
def radixLiteral (radix : Nat) (cs : List Char) : JSNum :=
  let ds := cs.takeWhile (fun c => (radixDigit radix c).isSome)
  let rest := cs.dropWhile (fun c => (radixDigit radix c).isSome)
  if ds = [] then JSNum.nan
  else if rest.all isStrWhiteSpaceChar then JSNum.fin (digitsValue radix ds)
  else JSNum.nan

/-- A `StrDecimalLiteral` followed only by white space. -/
def decimalLiteral (cs : List Char) : JSNum :=
  match scanDecimal cs with
  | some (v, rest) => if rest.all isStrWhiteSpaceChar then v else JSNum.nan
  | none => JSNum.nan

/-- The abstract operation StringToNumber (`Number(s)` on a string): white
space is stripped at both ends, the empty string is `0`, a decimal literal or a
`0x`/`0o`/`0b` integer literal gives its value, anything else is NaN.  The
value of a literal is exact: rounding to binary64, underflow to 0 and overflow
to Infinity are not modelled. -/
def stringToNumber (s : String) : JSNum :=
  match s.toList.dropWhile isStrWhiteSpaceChar with
  | [] => JSNum.fin 0
  | '0' :: x :: r =>
    if x = 'x' ∨ x = 'X' then radixLiteral 16 r
    else if x = 'o' ∨ x = 'O' then radixLiteral 8 r
    else if x = 'b' ∨ x = 'B' then radixLiteral 2 r
    else decimalLiteral ('0' :: x :: r)
  | cs => decimalLiteral cs

/-- The global `parseFloat` on a string: leading white space is stripped
and the longest prefix that is a decimal literal is evaluated; NaN when there
is none.  The value of the literal is exact: rounding to binary64, underflow
and overflow are not modelled. -/
def stringParseFloat (s : String) : JSNum :=
  match scanDecimal (s.toList.dropWhile isStrWhiteSpaceChar) with
  | some (v, _) => v
  | none => JSNum.nan

/-- The number of UTF-16 code units of a string (`s.length`). -/
def utf16Length (s : String) : Nat :=
  s.toList.foldl (fun n c => n + (if c.toNat < 0x10000 then 1 else 2)) 0

/-- The result of `String.prototype.trim`. -/
def trim (s : String) : String :=
  String.mk ((((s.toList.dropWhile isStrWhiteSpaceChar).reverse).dropWhile
    isStrWhiteSpaceChar).reverse)

/-! ## Request values -/

/-- A member of a parsed JSON request body.  An array is given by its
`length` and by the string its elements join to (`Array.prototype.toString`),
which is all the handlers observe of it; `object` is a plain JSON object
without a `length` member. -/
inductive JsValue where
  | undefined
  | null
  | bool (b : Bool)
  | number (n : JSNum)
  | string (s : String)
  | array (length : Nat) (joined : String)
  | object
deriving DecidableEq

namespace JsValue

/-- ToBoolean: what `!v` negates. -/
def toBoolean : JsValue → Bool
  | undefined => false
  | null => false
  | bool b => b
  | number n => n.toBoolean
  | string s => decide (s ≠ "")
  | array _ _ => true
  | object => true

/-- ToNumber: the coercion applied by `isNaN(v)` and by `v <= 0`. -/
def toNumber : JsValue → JSNum
  | undefined => JSNum.nan
  | null => JSNum.fin 0
  | bool b => if b then JSNum.fin 1 else JSNum.fin 0
  | number n => n
  | string s => stringToNumber s
  | array _ joined => stringToNumber joined
  | object => JSNum.nan

/-- The global `parseFloat(v)`: `v` is converted to a string and the
string is parsed.  For a Number the string is its shortest round-trip
representation, which parses back to the same value. -/
def parseFloat : JsValue → JSNum
  | undefined => stringParseFloat "undefined"
  | null => stringParseFloat "null"
  | bool b => stringParseFloat (if b then "true" else "false")
  | number n => n
  | string s => stringParseFloat s
  | array _ joined => stringParseFloat joined
  | object => stringParseFloat "[object Object]"

end JsValue

/-! ## Data model -/

/-- Modelled from the spec: a document of the `users` collection
(`models/User.js` is not among the sources).  The fields are the ones the
specification lists for an Account and the controllers read and write; balance
and the two totals are Number paths. -/
structure User where
  id : Nat
  name : String
  email : String
  phone : String
  accountType : String
  accountNumber : String
  password : String
  balance : JSNum
  totalDeposited : JSNum
  totalWithdrawn : JSNum
deriving DecidableEq

/-- The `enum` of the `type` path of `transactionSchema`. -/
inductive TransactionType where
  | deposit
  | withdraw
  | transfer
deriving DecidableEq

/-- A document of the `transactions` collection (`models/Transaction.js`);
the `date` path, a wall-clock default, is left out. -/
structure Transaction where
  userId : Nat
  type : TransactionType
  amount : JSNum
  recipient : Option String := none
  recipientAccountNumber : Option String := none
  status : String := "completed"
deriving DecidableEq

/-- The two collections. -/
structure Db where
  users : List User
  transactions : List Transaction
deriving DecidableEq

/-- A completed persistence operation, as recorded in an outcome. -/
inductive Op where
  | findById (id : Nat)
  | findOne (email accountNumber : String)
  | saveUser (doc : User)
  | createTransaction (doc : Transaction)
deriving DecidableEq

/-- The `user` object of the profile responses. -/
structure ProfileView where
  id : Nat
  name : String
  email : String
  phone : String
  accountType : String
  accountNumber : String
deriving DecidableEq

/-- An HTTP response: status code and the members of the JSON body.  For a
500 the `message` is a label of the exception that was caught, not the text the
runtime produces. -/
structure Response where
  status : Nat
  message : String
  balance : Option JSNum := none
  totalDeposited : Option JSNum := none
  totalWithdrawn : Option JSNum := none
  user : Option ProfileView := none
deriving DecidableEq

/-- What a handler leaves behind: the database, the persistence operations
it completed, in order, and the response. -/
structure Outcome where
  db : Db
  ops : List Op
  res : Response
deriving DecidableEq

/-- The members of `req.body` the account handlers destructure; an absent
member is `undefined`. -/
structure Body where
  amount : JsValue := JsValue.undefined
  recipientEmailOrAccount : JsValue := JsValue.undefined
  name : JsValue := JsValue.undefined
  phone : JsValue := JsValue.undefined
  currentPassword : JsValue := JsValue.undefined
  newPassword : JsValue := JsValue.undefined
  confirmPassword : JsValue := JsValue.undefined

/-- Primitives the handlers call and the sources do not define:
`String.prototype.toLowerCase`, and the credential methods of the User model
(`comparePassword`, and the hashing of an assigned password on save); `none`
stands for a thrown exception or a rejected save. -/
structure Env where
  toLowerCase : String → String
  comparePassword : JsValue → String → Option Bool
  storePassword : JsValue → Option String

/-! ## Persistence -/

/-- The cast applied when a value is assigned to a path declared
`type: Number` (`amount` in `transactionSchema`; balance and the totals of the
User model): every Number but NaN is kept as it is, NaN does not cast, and the
`save` or `create` that follows rejects, which the handler's `catch` answers
with 500. -/
def castNumber (n : JSNum) : Option JSNum :=
  if n.isNaN then none else some n

namespace Db

/-- The query `User.findById(id)`. -/
def findById (db : Db) (id : Nat) : Option User :=
  db.users.find? (fun u => u.id == id)

/-- The query `User.findOne` with `$or: [{ email }, { accountNumber }]`. -/
def findOne (db : Db) (email accountNumber : String) : Option User :=
  db.users.find? (fun u => u.email == email || u.accountNumber == accountNumber)

/-- The effect of `doc.save()`: the stored document with that `_id` is
replaced. -/
def save (db : Db) (doc : User) : Db :=
  { db with users := db.users.map (fun u => if u.id == doc.id then doc else u) }

/-- The effect of `Transaction.create(doc)`: the document is appended. -/
def create (db : Db) (doc : Transaction) : Db :=
  { db with transactions := db.transactions ++ [doc] }

end Db

/-! ## Handlers of `accountController.js` -/

/-- The amount guard `!amount || isNaN(amount) || amount <= 0`. -/
def invalidAmount (amount : JsValue) : Bool :=
  !amount.toBoolean || amount.toNumber.isNaN || amount.toNumber.le (JSNum.fin 0)

/-- The response `res.status(code).json({ message })`. -/
def reply (code : Nat) (message : String) : Response :=
  { status := code, message := message }

/-- The handler `deposit`. -/
def deposit (db : Db) (uid : Nat) (body : Body) : Outcome :=
  let amount := body.amount
  if invalidAmount amount then
    ⟨db, [], reply 400 "Please enter a valid positive amount"⟩
  else
    let amountNum := amount.parseFloat
    match db.findById uid with
    | none => ⟨db, [Op.findById uid], reply 500 "TypeError: user is null"⟩
    | some user =>
      match castNumber (user.balance.add amountNum),
            castNumber (user.totalDeposited.add amountNum) with
      | some balance, some totalDeposited =>
        let user1 := { user with balance := balance, totalDeposited := totalDeposited }
        let db1 := db.save user1
        match castNumber amountNum with
        | none =>
          ⟨db1, [Op.findById uid, Op.saveUser user1], reply 500 "ValidationError: amount"⟩
        | some amt =>
          let tx : Transaction :=
            { userId := user1.id, type := TransactionType.deposit, amount := amt,
              status := "completed" }
          ⟨db1.create tx, [Op.findById uid, Op.saveUser user1, Op.createTransaction tx],
            { status := 200, message := "Deposit successful",
              balance := some user1.balance, totalDeposited := some user1.totalDeposited }⟩
      | _, _ => ⟨db, [Op.findById uid], reply 500 "ValidationError: user"⟩

/-- The handler `withdraw`. -/
def withdraw (db : Db) (uid : Nat) (body : Body) : Outcome :=
  let amount := body.amount
  if invalidAmount amount then
    ⟨db, [], reply 400 "Please enter a valid positive amount"⟩
  else
    let amountNum := amount.parseFloat
    match db.findById uid with
    | none => ⟨db, [Op.findById uid], reply 500 "TypeError: user is null"⟩
    | some user =>
      if user.balance.lt amountNum then
        ⟨db, [Op.findById uid], reply 400 "Insufficient balance"⟩
      else
        match castNumber (user.balance.sub amountNum),
              castNumber (user.totalWithdrawn.add amountNum) with
        | some balance, some totalWithdrawn =>
          let user1 := { user with balance := balance, totalWithdrawn := totalWithdrawn }
          let db1 := db.save user1
          match castNumber amountNum with
          | none =>
            ⟨db1, [Op.findById uid, Op.saveUser user1], reply 500 "ValidationError: amount"⟩
          | some amt =>
            let tx : Transaction :=
              { userId := user1.id, type := TransactionType.withdraw, amount := amt,
                status := "completed" }
            ⟨db1.create tx, [Op.findById uid, Op.saveUser user1, Op.createTransaction tx],
              { status := 200, message := "Withdrawal successful",
                balance := some user1.balance, totalWithdrawn := some user1.totalWithdrawn }⟩
        | _, _ => ⟨db, [Op.findById uid], reply 500 "ValidationError: user"⟩

/-- The handler `transfer`. -/
def transfer (env : Env) (db : Db) (uid : Nat) (body : Body) : Outcome :=
  let recipientEmailOrAccount := body.recipientEmailOrAccount
  let amount := body.amount
  if !recipientEmailOrAccount.toBoolean || invalidAmount amount then
    ⟨db, [], reply 400 "Please provide recipient and valid amount"⟩
  else
    let amountNum := amount.parseFloat
    match db.findById uid with
    | none => ⟨db, [Op.findById uid], reply 500 "TypeError: sender is null"⟩
    | some sender =>
      if sender.balance.lt amountNum then
        ⟨db, [Op.findById uid], reply 400 "Insufficient balance"⟩
      else
        match recipientEmailOrAccount with
        | JsValue.string key =>
          let q := Op.findOne (env.toLowerCase key) key
          match db.findOne (env.toLowerCase key) key with
          | none => ⟨db, [Op.findById uid, q], reply 404 "Recipient not found"⟩
          | some recipient =>
            if recipient.id = sender.id then
              ⟨db, [Op.findById uid, q], reply 400 "Cannot transfer to yourself"⟩
            else
              match castNumber (sender.balance.sub amountNum),
                    castNumber (sender.totalWithdrawn.add amountNum) with
              | some sBalance, some sWithdrawn =>
                let sender1 := { sender with balance := sBalance, totalWithdrawn := sWithdrawn }
                let db1 := db.save sender1
                match castNumber (recipient.balance.add amountNum),
                      castNumber (recipient.totalDeposited.add amountNum) with
                | some rBalance, some rDeposited =>
                  let recipient1 :=
                    { recipient with balance := rBalance, totalDeposited := rDeposited }
                  let db2 := db1.save recipient1
                  match castNumber amountNum with
                  | none =>
                    ⟨db2, [Op.findById uid, q, Op.saveUser sender1, Op.saveUser recipient1],
                      reply 500 "ValidationError: amount"⟩
                  | some amt =>
                    let tx1 : Transaction :=
                      { userId := sender1.id, type := TransactionType.transfer, amount := amt,
                        recipient := some recipient1.email,
                        recipientAccountNumber := some recipient1.accountNumber,
                        status := "completed" }
                    let tx2 : Transaction :=
                      { userId := recipient1.id, type := TransactionType.transfer, amount := amt,
                        recipient := some sender1.email,
                        recipientAccountNumber := some sender1.accountNumber,
                        status := "completed" }
                    ⟨(db2.create tx1).create tx2,
                      [Op.findById uid, q, Op.saveUser sender1, Op.saveUser recipient1,
                        Op.createTransaction tx1, Op.createTransaction tx2],
                      { status := 200, message := "Transfer successful",
                        balance := some sender1.balance,
                        totalWithdrawn := some sender1.totalWithdrawn }⟩
                | _, _ =>
                  ⟨db1, [Op.findById uid, q, Op.saveUser sender1],
                    reply 500 "ValidationError: recipient"⟩
              | _, _ => ⟨db, [Op.findById uid, q], reply 500 "ValidationError: sender"⟩
        | _ => ⟨db, [Op.findById uid], reply 500 "TypeError: toLowerCase is not a function"⟩

/-- The statement `if (field) user.field = field.trim()` of
`updateProfile`: the new value of the field, or `none` when `trim` is called on
a value that has no such method. -/
def trimmedOr (field : JsValue) (current : String) : Option String :=
  if field.toBoolean then
    match field with
    | JsValue.string s => some (trim s)
    | _ => none
  else some current

/-- The handler `updateProfile`. -/
def updateProfile (db : Db) (uid : Nat) (body : Body) : Outcome :=
  match db.findById uid with
  | none => ⟨db, [Op.findById uid], reply 500 "TypeError: user is null"⟩
  | some user =>
    match trimmedOr body.name user.name, trimmedOr body.phone user.phone with
    | some name, some phone =>
      let user1 := { user with name := name, phone := phone }
      ⟨db.save user1, [Op.findById uid, Op.saveUser user1],
        { status := 200, message := "Profile updated successfully",
          user := some
            { id := user1.id, name := user1.name, email := user1.email, phone := user1.phone,
              accountType := user1.accountType, accountNumber := user1.accountNumber } }⟩
    | _, _ => ⟨db, [Op.findById uid], reply 500 "TypeError: trim is not a function"⟩

/-- The test `newPassword.length < 6`: a string has its number of code
units, an array its number of elements, any other value no `length`
(`undefined < 6` is false). -/
def lengthBelow6 : JsValue → Bool
  | JsValue.string s => decide (utf16Length s < 6)
  | JsValue.array n _ => decide (n < 6)
  | _ => false

/-- Strict inequality `a !== b` of two parsed JSON values: arrays and
objects are distinct references, NaN differs from itself. -/
def strictNe : JsValue → JsValue → Bool
  | JsValue.undefined, JsValue.undefined => false
  | JsValue.null, JsValue.null => false
  | JsValue.bool a, JsValue.bool b => a != b
  | JsValue.number a, JsValue.number b => a.isNaN || b.isNaN || a != b
  | JsValue.string a, JsValue.string b => a != b
  | _, _ => true

/-- The handler `changePassword`. -/
def changePassword (env : Env) (db : Db) (uid : Nat) (body : Body) : Outcome :=
  let currentPassword := body.currentPassword
  let newPassword := body.newPassword
  let confirmPassword := body.confirmPassword
  if !currentPassword.toBoolean || !newPassword.toBoolean || !confirmPassword.toBoolean then
    ⟨db, [], reply 400 "All password fields are required"⟩
  else if lengthBelow6 newPassword then
    ⟨db, [], reply 400 "New password must be at least 6 characters"⟩
  else if strictNe newPassword confirmPassword then
    ⟨db, [], reply 400 "New passwords do not match"⟩
  else
    match db.findById uid with
    | none => ⟨db, [Op.findById uid], reply 500 "TypeError: user is null"⟩
    | some user =>
      match env.comparePassword currentPassword user.password with
      | none => ⟨db, [Op.findById uid], reply 500 "Error: comparePassword"⟩
      | some false => ⟨db, [Op.findById uid], reply 401 "Current password is incorrect"⟩
      | some true =>
        match env.storePassword newPassword with
        | none => ⟨db, [Op.findById uid], reply 500 "ValidationError: password"⟩
        | some credential =>
          let user1 := { user with password := credential }
          ⟨db.save user1, [Op.findById uid, Op.saveUser user1],
            reply 200 "Password changed successfully"⟩

/-- The state-changing routes of `routes/accountRoutes.js`. -/
inductive Route where
  | deposit
  | withdraw
  | transfer
  | updateProfile
  | changePassword
deriving DecidableEq

/-- The router: the handler mounted on each route, run for the
authenticated user `uid`. -/
def handle (env : Env) (db : Db) (uid : Nat) (route : Route) (body : Body) : Outcome :=
  match route with
  | Route.deposit => deposit db uid body
  | Route.withdraw => withdraw db uid body
  | Route.transfer => transfer env db uid body
  | Route.updateProfile => updateProfile db uid body
  | Route.changePassword => changePassword env db uid body

/-! ## Handlers of `authController.js` -/

/-- The members of `req.body` that `register` and `login` destructure; an
absent member is `undefined`. -/
structure AuthBody where
  name : JsValue := JsValue.undefined
  email : JsValue := JsValue.undefined
  phone : JsValue := JsValue.undefined
  accountType : JsValue := JsValue.undefined
  password : JsValue := JsValue.undefined
  confirmPassword : JsValue := JsValue.undefined

/-- The `user` object of the `register` and `login` responses; `register`
leaves the account type and the amounts out. -/
structure AuthUserView where
  id : Nat
  name : String
  email : String
  accountNumber : String
  accountType : Option String := none
  balance : Option JSNum := none
  totalDeposited : Option JSNum := none
  totalWithdrawn : Option JSNum := none
deriving DecidableEq

/-- The response of an auth handler: status, the members of the JSON body,
and the value of the `token` cookie when `res.cookie` was called. -/
structure AuthResponse where
  status : Nat
  message : String
  user : Option AuthUserView := none
  cookie : Option String := none
deriving DecidableEq

/-- What an auth handler leaves behind. -/
structure AuthOutcome where
  db : Db
  res : AuthResponse
deriving DecidableEq

/-- The primitives of `Env`, and two more that only the auth handlers use:
the cast and validation of the `accountType` path of the User model (`none`
when the save rejects) and `jwt.sign` on the user id (`generateToken`). -/
structure AuthEnv extends Env where
  castAccountType : JsValue → Option String
  sign : Nat → String

/-- The response `res.status(code).json({ message })` of an auth handler. -/
def authReply (code : Nat) (message : String) : AuthResponse :=
  { status := code, message := message }

/-- A character of the class `[^\s@]`. -/
def isAddressChar (c : Char) : Bool := !isStrWhiteSpaceChar c && c != '@'

/-- Whether a string matches `/^[^\s@]+@[^\s@]+\.[^\s@]+$/`: a non-empty run
of address characters, `@`, then address characters only, with a `.` that is
neither the first nor the last of them. -/
def matchesEmailRegex (cs : List Char) : Bool :=
  match cs.dropWhile isAddressChar with
  | '@' :: domain =>
    !(cs.takeWhile isAddressChar).isEmpty && domain.all isAddressChar &&
      ((domain.drop 1).dropLast).contains '.'
  | _ => false

/-- The test `emailRegex.test(email)`: the value is converted to a string
first.  The strings of `undefined`, `null`, a boolean, a Number and a plain
object contain no `@`. -/
def emailRegexTest : JsValue → Bool
  | JsValue.string s => matchesEmailRegex s.toList
  | JsValue.array _ joined => matchesEmailRegex joined.toList
  | _ => false

namespace Db

/-- The query `User.findOne({ email })`. -/
def findByEmail (db : Db) (email : String) : Option User :=
  db.users.find? (fun u => u.email == email)

/-- The query `User.findOne({ accountNumber })`. -/
def findByAccountNumber (db : Db) (accountNumber : String) : Option User :=
  db.users.find? (fun u => u.accountNumber == accountNumber)

/-- Modelled from the spec: `User.create(doc)` (`models/User.js` is not
among the sources).  The persistence layer enforces uniqueness of the document
id, the email and the account number; a duplicate makes the call reject. -/
def createUser (db : Db) (doc : User) : Option Db :=
  if db.users.any (fun u =>
      u.id == doc.id || u.email == doc.email || u.accountNumber == doc.accountNumber) then
    none
  else some { db with users := db.users ++ [doc] }

end Db

/-- The retry loop of `register` over the successive results of
`generateAccountNumber()`: the first candidate for which
`User.findOne({ accountNumber })` finds nothing.  `none` when every candidate
supplied is taken: the loop is still running. -/
def uniqueAccountNumber (db : Db) : List String → Option String
  | [] => none
  | accountNumber :: later =>
    match db.findByAccountNumber accountNumber with
    | none => some accountNumber
    | some _ => uniqueAccountNumber db later

/-- The handler `register`.  `newId` is the `_id` given to the created
document and `candidates` the successive results of `generateAccountNumber()`;
the result is `none` when the retry loop does not exit on them. -/
def register (env : AuthEnv) (db : Db) (newId : Nat) (candidates : List String)
    (body : AuthBody) : Option AuthOutcome :=
  let name := body.name
  let email := body.email
  let phone := body.phone
  let accountType := body.accountType
  let password := body.password
  let confirmPassword := body.confirmPassword
  if !name.toBoolean || !email.toBoolean || !phone.toBoolean || !accountType.toBoolean ||
      !password.toBoolean || !confirmPassword.toBoolean then
    some ⟨db, authReply 400 "All fields are required"⟩
  else if !emailRegexTest email then
    some ⟨db, authReply 400 "Invalid email format"⟩
  else if lengthBelow6 password then
    some ⟨db, authReply 400 "Password must be at least 6 characters"⟩
  else if strictNe password confirmPassword then
    some ⟨db, authReply 400 "Passwords do not match"⟩
  else
    match email with
    | JsValue.string e =>
      match db.findByEmail (env.toLowerCase e) with
      | some _ => some ⟨db, authReply 400 "Email already registered"⟩
      | none =>
        match uniqueAccountNumber db candidates with
        | none => none
        | some accountNumber =>
          match name, phone, env.castAccountType accountType, env.storePassword password with
          | JsValue.string n, JsValue.string p, some kind, some credential =>
            let user : User :=
              { id := newId, name := trim n, email := trim (env.toLowerCase e),
                phone := trim p, accountType := kind, accountNumber := accountNumber,
                password := credential, balance := JSNum.fin 0,
                totalDeposited := JSNum.fin 0, totalWithdrawn := JSNum.fin 0 }
            match db.createUser user with
            | none => some ⟨db, authReply 500 "MongoServerError: duplicate key"⟩
            | some db1 =>
              some ⟨db1,
                { status := 201, message := "Account created successfully",
                  user := some
                    { id := user.id, name := user.name, email := user.email,
                      accountNumber := user.accountNumber } }⟩
          | _, _, _, _ => some ⟨db, authReply 500 "Error: User.create"⟩
    | _ => some ⟨db, authReply 500 "TypeError: toLowerCase is not a function"⟩

/-- The handler `login`. -/
def login (env : AuthEnv) (db : Db) (body : AuthBody) : AuthOutcome :=
  let email := body.email
  let password := body.password
  if !email.toBoolean || !password.toBoolean then
    ⟨db, authReply 400 "Email and password are required"⟩
  else
    match email with
    | JsValue.string e =>
      match db.findByEmail (env.toLowerCase e) with
      | none => ⟨db, authReply 401 "Invalid email or password"⟩
      | some user =>
        match env.comparePassword password user.password with
        | none => ⟨db, authReply 500 "Error: comparePassword"⟩
        | some false => ⟨db, authReply 401 "Invalid email or password"⟩
        | some true =>
          ⟨db,
            { status := 200, message := "Login successful",
              user := some
                { id := user.id, name := user.name, email := user.email,
                  accountNumber := user.accountNumber, accountType := some user.accountType,
                  balance := some user.balance, totalDeposited := some user.totalDeposited,
                  totalWithdrawn := some user.totalWithdrawn },
              cookie := some (env.sign user.id) }⟩
    | _ => ⟨db, authReply 500 "TypeError: toLowerCase is not a function"⟩

/-- Whether the six fields that `register` requires are all truthy: the
negation of its first test. -/
def AuthBody.allPresent (body : AuthBody) : Bool :=
  body.name.toBoolean && body.email.toBoolean && body.phone.toBoolean &&
    body.accountType.toBoolean && body.password.toBoolean && body.confirmPassword.toBoolean

/-- The accounting identity of one account: the balance is a number and
equals totalDeposited - totalWithdrawn. -/
def Balanced (u : User) : Prop :=
  u.balance.isNaN = false ∧ u.balance = u.totalDeposited.sub u.totalWithdrawn

/-- The states of the store that requests can lead to, starting from
accounts whose balance and totals are all 0. -/
inductive Reachable (env : AuthEnv) : Db → Prop where
  | start (db : Db)
      (h : ∀ u ∈ db.users, u.balance = JSNum.fin 0 ∧ u.totalDeposited = JSNum.fin 0 ∧
        u.totalWithdrawn = JSNum.fin 0) : Reachable env db
  | register (db : Db) (newId : Nat) (candidates : List String) (body : AuthBody)
      (out : AuthOutcome) (h : Reachable env db)
      (hout : register env db newId candidates body = some out) : Reachable env out.db
  | account (db : Db) (uid : Nat) (route : Route) (body : Body) (h : Reachable env db) :
      Reachable env (handle env.toEnv db uid route body).db

/-! ## Documents and records named in the statements -/

/-- Whether a persistence operation is a query. -/
def Op.isRead : Op → Bool
  | Op.findById _ => true
  | Op.findOne _ _ => true
  | _ => false

/-- The sender's document after a transfer of `x`. -/
def debited (sender : User) (x : JSNum) : User :=
  { sender with balance := sender.balance.sub x, totalWithdrawn := sender.totalWithdrawn.add x }

/-- The recipient's document after a transfer of `x`. -/
def credited (recipient : User) (x : JSNum) : User :=
  { recipient with
    balance := recipient.balance.add x, totalDeposited := recipient.totalDeposited.add x }

/-- The record a transfer of `x` files under `owner`, naming `other`. -/
def transferRecord (owner other : User) (x : JSNum) : Transaction :=
  { userId := owner.id, type := TransactionType.transfer, amount := x,
    recipient := some other.email, recipientAccountNumber := some other.accountNumber,
    status := "completed" }

/-- Both totals of `v` are at least those of `u`. -/
def TotalsGrow (u v : User) : Prop :=
  u.totalDeposited.le v.totalDeposited = true ∧ u.totalWithdrawn.le v.totalWithdrawn = true

/-! ## Sample data -/

/-- A runtime in which lower-casing is the ASCII one and the credential is
kept as given. -/
def sampleEnv : Env where
  toLowerCase := fun s => String.mk (s.toList.map Char.toLower)
  comparePassword := fun candidate stored =>
    match candidate with
    | JsValue.string s => some (s == stored)
    | _ => none
  storePassword := fun v =>
    match v with
    | JsValue.string s => some s
    | _ => none

/-- The sample runtime, with an account type kept as given when it is a
string and a token made of as many letters as the user id. -/
def sampleAuthEnv : AuthEnv where
  toEnv := sampleEnv
  castAccountType := fun v =>
    match v with
    | JsValue.string s => some s
    | _ => none
  sign := fun id => String.mk (List.replicate id 't')

/-- The sample runtime with a User model that casts the number 123, when
it is assigned to the password, to the string "123" (what a String path does
with a Number) and keeps strings as given. -/
def castingAuthEnv : AuthEnv where
  toLowerCase := sampleEnv.toLowerCase
  comparePassword := sampleEnv.comparePassword
  storePassword := fun v =>
    match v with
    | JsValue.string s => some s
    | JsValue.number n => if n = JSNum.fin 123 then some "123" else none
    | _ => none
  castAccountType := sampleAuthEnv.castAccountType
  sign := sampleAuthEnv.sign

/-- An account holding 500. -/
def asha : User :=
  { id := 1, name := "Asha", email := "a@x.com", phone := "555", accountType := "savings",
    accountNumber := "KB000000000101", password := "secret1",
    balance := JSNum.fin 500, totalDeposited := JSNum.fin 500, totalWithdrawn := JSNum.fin 0 }

/-- An account holding nothing. -/
def ben : User :=
  { id := 2, name := "Ben", email := "b@x.com", phone := "556", accountType := "current",
    accountNumber := "KB000000000202", password := "secret2",
    balance := JSNum.fin 0, totalDeposited := JSNum.fin 0, totalWithdrawn := JSNum.fin 0 }

/-- A store with the two accounts and no transaction. -/
def sampleDb : Db := { users := [asha, ben], transactions := [] }

/-! ## Arithmetic of `JSNum` -/

theorem castNumber_some_iff (x y : JSNum) : castNumber x = some y ↔ x.isNaN = false ∧ y = x := by
  unfold castNumber
  cases hx : x.isNaN <;> simp [eq_comm]

/-! ## The store -/

theorem Db.findById_id (db : Db) (i : Nat) (u : User) (h : db.findById i = some u) :
    u.id = i := by
  have := List.find?_some h
  simpa using this

theorem Db.findById_save (db : Db) (d : User) (i : Nat) :
    (db.save d).findById i =
      if i = d.id then (db.findById i).map (fun _ => d) else db.findById i := by
  unfold Db.findById Db.save
  simp only
  induction db.users with
  | nil => simp
  | cons u us ih =>
    rw [List.map_cons, List.find?_cons, List.find?_cons, ih]
    by_cases hu : u.id = d.id
    · by_cases hi : i = d.id
      · simp [hu, hi]
      · have hdi : (d.id == i) = false := by simpa using fun h => hi h.symm
        simp [hu, hi, hdi]
    · by_cases hui : u.id = i
      · have hi : ¬ i = d.id := fun h => hu (hui.trans h)
        simp [hu, hui, hi]
      · have hui2 : (u.id == i) = false := by simpa using hui
        simp [hu, hui2]

/-! ## The amount guard and `parseFloat` -/

theorem scanDecimal_zero_letter (x : Char) (r : List Char)
    (hx : x = 'x' ∨ x = 'X' ∨ x = 'o' ∨ x = 'O' ∨ x = 'b' ∨ x = 'B') :
    scanDecimal ('0' :: x :: r) = some (JSNum.fin 0, x :: r) := by
  rcases hx with h | h | h | h | h | h <;> subst h <;>
    simp [scanDecimal, scanUnsigned, scanExponent, isDecimalDigit, digitsValue, radixDigit,
      List.isPrefixOf, List.takeWhile, List.dropWhile]


theorem decimalLiteral_eq (cs : List Char) (h : (decimalLiteral cs).isNaN = false) :
    (match scanDecimal cs with
      | some (v, _) => v
      | none => JSNum.nan) = decimalLiteral cs := by
  unfold decimalLiteral at h ⊢
  cases hsc : scanDecimal cs with
  | none => rfl
  | some p =>
    obtain ⟨v, rest⟩ := p
    simp only [hsc] at h ⊢
    cases hall : rest.all isStrWhiteSpaceChar
    · simp [hall, JSNum.isNaN] at h
    · simp

theorem stringParseFloat_of_stringToNumber (s : String)
    (h : (stringToNumber s).isNaN = false) :
    stringParseFloat s = stringToNumber s ∨ stringParseFloat s = JSNum.fin 0 ∨
      stringParseFloat s = JSNum.nan := by
  unfold stringParseFloat stringToNumber at *
  generalize s.toList.dropWhile isStrWhiteSpaceChar = cs at *
  split at h
  · right; right; simp [scanDecimal, scanUnsigned, List.isPrefixOf]
  · rename_i x r
    by_cases hx : x = 'x' ∨ x = 'X' ∨ x = 'o' ∨ x = 'O' ∨ x = 'b' ∨ x = 'B'
    · right; left
      rw [scanDecimal_zero_letter x r hx]
    · left
      have h1 : ¬ (x = 'x' ∨ x = 'X') := fun h => hx (by tauto)
      have h2 : ¬ (x = 'o' ∨ x = 'O') := fun h => hx (by tauto)
      have h3 : ¬ (x = 'b' ∨ x = 'B') := fun h => hx (by tauto)
      simp only [h1, h2, h3, if_false] at h ⊢
      exact decimalLiteral_eq _ h
  · left
    exact decimalLiteral_eq _ h


theorem invalidAmount_eq_false (v : JsValue) (h : invalidAmount v = false) :
    v.toBoolean = true ∧ v.toNumber.isNaN = false ∧ v.toNumber.le (JSNum.fin 0) = false := by
  simpa [invalidAmount, and_assoc] using h

theorem JSNum.zero_le_of_not_le (x : JSNum) (h1 : x.isNaN = false)
    (h2 : x.le (JSNum.fin 0) = false) : (JSNum.fin 0).le x = true := by
  cases x <;> simp_all [JSNum.le, JSNum.isNaN]
  exact le_of_lt ‹_›

theorem parseFloat_of_accepted (v : JsValue) (h : invalidAmount v = false) :
    v.parseFloat = v.toNumber ∨ v.parseFloat = JSNum.fin 0 ∨ v.parseFloat = JSNum.nan := by
  obtain ⟨hb, hn, _⟩ := invalidAmount_eq_false v h
  cases v with
  | undefined => simp [JsValue.toBoolean] at hb
  | null => simp [JsValue.toBoolean] at hb
  | bool b =>
    right; right
    cases b
    · simp [JsValue.toBoolean] at hb
    · rfl
  | number n => left; rfl
  | string s => exact stringParseFloat_of_stringToNumber s hn
  | array n j => exact stringParseFloat_of_stringToNumber j hn
  | object => simp [JsValue.toNumber, JSNum.isNaN] at hn

theorem parseFloat_nonneg (v : JsValue) (h : invalidAmount v = false) :
    v.parseFloat.isNaN = true ∨ (JSNum.fin 0).le v.parseFloat = true := by
  obtain ⟨_, hn, hl⟩ := invalidAmount_eq_false v h
  rcases parseFloat_of_accepted v h with e | e | e
  · right; rw [e]; exact JSNum.zero_le_of_not_le _ hn hl
  · right; rw [e]; simp [JSNum.le]
  · left; rw [e]; rfl

/-! ## The shape of a successful transfer -/

theorem transfer_ok (env : Env) (db : Db) (uid : Nat) (body : Body)
    (h : (transfer env db uid body).res.status = 200) :
    ∃ key sender recipient,
      body.recipientEmailOrAccount = JsValue.string key ∧
      invalidAmount body.amount = false ∧
      db.findById uid = some sender ∧
      sender.balance.lt body.amount.parseFloat = false ∧
      db.findOne (env.toLowerCase key) key = some recipient ∧
      recipient.id ≠ sender.id ∧
      (sender.balance.sub body.amount.parseFloat).isNaN = false ∧
      (sender.totalWithdrawn.add body.amount.parseFloat).isNaN = false ∧
      (recipient.balance.add body.amount.parseFloat).isNaN = false ∧
      (recipient.totalDeposited.add body.amount.parseFloat).isNaN = false ∧
      transfer env db uid body =
        ⟨(((db.save (debited sender body.amount.parseFloat)).save
              (credited recipient body.amount.parseFloat)).create
            (transferRecord sender recipient body.amount.parseFloat)).create
            (transferRecord recipient sender body.amount.parseFloat),
          [Op.findById uid, Op.findOne (env.toLowerCase key) key,
            Op.saveUser (debited sender body.amount.parseFloat),
            Op.saveUser (credited recipient body.amount.parseFloat),
            Op.createTransaction (transferRecord sender recipient body.amount.parseFloat),
            Op.createTransaction (transferRecord recipient sender body.amount.parseFloat)],
          { status := 200, message := "Transfer successful",
            balance := some (sender.balance.sub body.amount.parseFloat),
            totalWithdrawn := some (sender.totalWithdrawn.add body.amount.parseFloat) }⟩ := by
  cases hg : (!body.recipientEmailOrAccount.toBoolean || invalidAmount body.amount) with
  | true => simp [transfer, hg, reply] at h
  | false =>
  have hok : invalidAmount body.amount = false := by
    cases hx : invalidAmount body.amount
    · rfl
    · simp [hx] at hg
  cases hs : db.findById uid with
  | none => simp [transfer, hg, hs, reply] at h
  | some sender =>
  cases hlt : sender.balance.lt body.amount.parseFloat with
  | true => simp [transfer, hg, hs, hlt, reply] at h
  | false =>
  cases hk : body.recipientEmailOrAccount with
  | string key =>
    rw [hk] at hg
    cases hr : db.findOne (env.toLowerCase key) key with
    | none => simp [transfer, hk, hg, hs, hlt, hr, reply] at h
    | some recipient =>
    by_cases hid : recipient.id = sender.id
    · simp [transfer, hk, hg, hs, hlt, hr, hid, reply] at h
    · cases h1 : castNumber (sender.balance.sub body.amount.parseFloat) with
      | none => simp [transfer, hk, hg, hs, hlt, hr, hid, h1, reply] at h
      | some sb =>
      cases h2 : castNumber (sender.totalWithdrawn.add body.amount.parseFloat) with
      | none => simp [transfer, hk, hg, hs, hlt, hr, hid, h1, h2, reply] at h
      | some sw =>
      cases h3 : castNumber (recipient.balance.add body.amount.parseFloat) with
      | none => simp [transfer, hk, hg, hs, hlt, hr, hid, h1, h2, h3, reply] at h
      | some rb =>
      cases h4 : castNumber (recipient.totalDeposited.add body.amount.parseFloat) with
      | none => simp [transfer, hk, hg, hs, hlt, hr, hid, h1, h2, h3, h4, reply] at h
      | some rd =>
      cases h5 : castNumber body.amount.parseFloat with
      | none => simp [transfer, hk, hg, hs, hlt, hr, hid, h1, h2, h3, h4, h5, reply] at h
      | some amt =>
      obtain ⟨n1, e1⟩ := (castNumber_some_iff _ _).1 h1
      obtain ⟨n2, e2⟩ := (castNumber_some_iff _ _).1 h2
      obtain ⟨n3, e3⟩ := (castNumber_some_iff _ _).1 h3
      obtain ⟨n4, e4⟩ := (castNumber_some_iff _ _).1 h4
      obtain ⟨_, e5⟩ := (castNumber_some_iff _ _).1 h5
      subst e1 e2 e3 e4 e5
      refine ⟨key, sender, recipient, rfl, hok, rfl, hlt, hr, hid, n1, n2, n3, n4, ?_⟩
      simp [transfer, hk, hg, hs, hlt, hr, hid, h1, h2, h3, h4, h5, debited, credited,
        transferRecord]
  | undefined =>
    simp only [transfer, hk, hs, hlt] at h
    split at h <;> simp [reply] at h
  | null =>
    simp only [transfer, hk, hs, hlt] at h
    split at h <;> simp [reply] at h
  | bool b =>
    simp only [transfer, hk, hs, hlt] at h
    split at h <;> simp [reply] at h
  | number n =>
    simp only [transfer, hk, hs, hlt] at h
    split at h <;> simp [reply] at h
  | array n j =>
    simp only [transfer, hk, hs, hlt] at h
    split at h <;> simp [reply] at h
  | object =>
    simp only [transfer, hk, hs, hlt] at h
    split at h <;> simp [reply] at h

/-! ## Transfer -/

/-- Claim C5: a transfer that answered 200 performed, after reading the sender and
finding the recipient, exactly four writes in this order: save of the sender's
updated document, save of the recipient's updated document, creation of the
sender's record, creation of the recipient's record.  The two records are the
only ones appended; both are 'transfer' records of the same amount with status
'completed', the sender's naming the recipient's email and account number and
the recipient's naming the sender's. -/
theorem transfer_records (env : Env) (db : Db) (uid : Nat) (body : Body)
    (h : (transfer env db uid body).res.status = 200) :
    ∃ key sender recipient,
      db.findById uid = some sender ∧
      db.findOne (env.toLowerCase key) key = some recipient ∧
      (transfer env db uid body).ops =
        [Op.findById uid, Op.findOne (env.toLowerCase key) key,
          Op.saveUser { sender with
            balance := sender.balance.sub body.amount.parseFloat,
            totalWithdrawn := sender.totalWithdrawn.add body.amount.parseFloat },
          Op.saveUser { recipient with
            balance := recipient.balance.add body.amount.parseFloat,
            totalDeposited := recipient.totalDeposited.add body.amount.parseFloat },
          Op.createTransaction
            { userId := sender.id, type := TransactionType.transfer,
              amount := body.amount.parseFloat, recipient := some recipient.email,
              recipientAccountNumber := some recipient.accountNumber, status := "completed" },
          Op.createTransaction
            { userId := recipient.id, type := TransactionType.transfer,
              amount := body.amount.parseFloat, recipient := some sender.email,
              recipientAccountNumber := some sender.accountNumber, status := "completed" }] ∧
      (transfer env db uid body).db.transactions =
        db.transactions ++
          [{ userId := sender.id, type := TransactionType.transfer,
             amount := body.amount.parseFloat, recipient := some recipient.email,
             recipientAccountNumber := some recipient.accountNumber, status := "completed" },
           { userId := recipient.id, type := TransactionType.transfer,
             amount := body.amount.parseFloat, recipient := some sender.email,
             recipientAccountNumber := some sender.accountNumber, status := "completed" }] := by
  obtain ⟨key, sender, recipient, _, _, hs, _, hr, _, _, _, _, _, heq⟩ :=
    transfer_ok env db uid body h
  refine ⟨key, sender, recipient, hs, hr, ?_, ?_⟩
  · rw [heq]; rfl
  · rw [heq]
    simp [Db.create, Db.save, transferRecord]

theorem transfer_records_witness :
    ∃ key sender recipient,
      sampleDb.findById 1 = some sender ∧
      sampleDb.findOne (sampleEnv.toLowerCase key) key = some recipient ∧
      (transfer sampleEnv sampleDb 1
          { recipientEmailOrAccount := JsValue.string "KB000000000202",
            amount := JsValue.number (JSNum.fin 25) }).ops =
        [Op.findById 1, Op.findOne (sampleEnv.toLowerCase key) key,
          Op.saveUser { sender with
            balance := sender.balance.sub (JSNum.fin 25),
            totalWithdrawn := sender.totalWithdrawn.add (JSNum.fin 25) },
          Op.saveUser { recipient with
            balance := recipient.balance.add (JSNum.fin 25),
            totalDeposited := recipient.totalDeposited.add (JSNum.fin 25) },
          Op.createTransaction
            { userId := sender.id, type := TransactionType.transfer,
              amount := (JSNum.fin 25), recipient := some recipient.email,
              recipientAccountNumber := some recipient.accountNumber, status := "completed" },
          Op.createTransaction
            { userId := recipient.id, type := TransactionType.transfer,
              amount := (JSNum.fin 25), recipient := some sender.email,
              recipientAccountNumber := some sender.accountNumber, status := "completed" }] ∧
      (transfer sampleEnv sampleDb 1
          { recipientEmailOrAccount := JsValue.string "KB000000000202",
            amount := JsValue.number (JSNum.fin 25) }).db.transactions =
        sampleDb.transactions ++
          [{ userId := sender.id, type := TransactionType.transfer,
             amount := (JSNum.fin 25), recipient := some recipient.email,
             recipientAccountNumber := some recipient.accountNumber, status := "completed" },
           { userId := recipient.id, type := TransactionType.transfer,
             amount := (JSNum.fin 25), recipient := some sender.email,
             recipientAccountNumber := some sender.accountNumber, status := "completed" }] :=
  transfer_records sampleEnv sampleDb 1
    { recipientEmailOrAccount := JsValue.string "KB000000000202",
      amount := JsValue.number (JSNum.fin 25) }
    (by decide)

/-- Claim C6: a transfer whose recipient key is found to be the caller's own
account answers 400 whatever the amount, and leaves the users and the
transactions exactly as they were. -/
theorem transfer_self_rejected (env : Env) (db : Db) (uid : Nat) (body : Body)
    (key : String) (sender recipient : User)
    (hs : db.findById uid = some sender)
    (hk : body.recipientEmailOrAccount = JsValue.string key)
    (hr : db.findOne (env.toLowerCase key) key = some recipient)
    (hself : recipient.id = sender.id) :
    (transfer env db uid body).res.status = 400 ∧ (transfer env db uid body).db = db := by
  simp only [transfer, hk, hs, hr, hself]
  split
  · exact ⟨rfl, rfl⟩
  · split
    · exact ⟨rfl, rfl⟩
    · simp [reply]

theorem transfer_self_rejected_witness :
    (transfer sampleEnv sampleDb 1
        { recipientEmailOrAccount := JsValue.string "A@X.com",
          amount := JsValue.number (JSNum.fin 5) }).res.status = 400 ∧
    (transfer sampleEnv sampleDb 1
        { recipientEmailOrAccount := JsValue.string "A@X.com",
          amount := JsValue.number (JSNum.fin 5) }).db = sampleDb :=
  transfer_self_rejected sampleEnv sampleDb 1
    { recipientEmailOrAccount := JsValue.string "A@X.com",
      amount := JsValue.number (JSNum.fin 5) } "A@X.com" asha asha rfl rfl (by decide) rfl

/-- Claim C7, as stated, fails: the caller holds 0, asks to send 50 to a key that
matches no account, and is answered 400 'Insufficient balance', not 404. -/
theorem transfer_unknown_recipient_insufficient :
    invalidAmount (JsValue.number (JSNum.fin 50)) = false ∧
    sampleDb.findOne (sampleEnv.toLowerCase "nobody@x.com") "nobody@x.com" = none ∧
    (transfer sampleEnv sampleDb 2
        { recipientEmailOrAccount := JsValue.string "nobody@x.com",
          amount := JsValue.number (JSNum.fin 50) }).res =
      reply 400 "Insufficient balance" := by
  decide

/-- Claim C7, amended: when the amount is accepted and does not exceed the
sender's balance, a non-empty recipient key that matches no account by
lower-cased email or by exact account number is answered 404 'Recipient not
found', and the store is left as it was. -/
theorem transfer_recipient_not_found (env : Env) (db : Db) (uid : Nat) (body : Body)
    (key : String) (sender : User)
    (hs : db.findById uid = some sender)
    (hk : body.recipientEmailOrAccount = JsValue.string key)
    (hkey : key ≠ "")
    (hok : invalidAmount body.amount = false)
    (hbal : sender.balance.lt body.amount.parseFloat = false)
    (hnone : ∀ u ∈ db.users, u.email ≠ env.toLowerCase key ∧ u.accountNumber ≠ key) :
    (transfer env db uid body).res = reply 404 "Recipient not found" ∧
    (transfer env db uid body).db = db := by
  have hr : db.findOne (env.toLowerCase key) key = none := by
    unfold Db.findOne
    rw [List.find?_eq_none]
    intro u hu
    have := hnone u hu
    simp [this.1, this.2]
  simp [transfer, hk, hs, hok, hbal, hr, JsValue.toBoolean, hkey]

theorem transfer_recipient_not_found_witness :
    (transfer sampleEnv sampleDb 1
        { recipientEmailOrAccount := JsValue.string "nobody@x.com",
          amount := JsValue.number (JSNum.fin 50) }).res = reply 404 "Recipient not found" ∧
    (transfer sampleEnv sampleDb 1
        { recipientEmailOrAccount := JsValue.string "nobody@x.com",
          amount := JsValue.number (JSNum.fin 50) }).db = sampleDb :=
  transfer_recipient_not_found sampleEnv sampleDb 1
    { recipientEmailOrAccount := JsValue.string "nobody@x.com",
      amount := JsValue.number (JSNum.fin 50) } "nobody@x.com" asha rfl rfl (by decide)
    (by decide) (by decide) (by decide)

/-! ## What the amount guard lets through -/

/-- Claim C8, at inputs the guard lets through: the boolean `true` is accepted,
parses to NaN, and the deposit reads the account and answers 500 rather than
400; the string "Infinity" is accepted and the deposit stores an infinite
balance; the string "0x10" is accepted (its Number value is 16) and the amount
that reaches the update is 0. -/
theorem amount_guard_leaks :
    invalidAmount (JsValue.bool true) = false ∧
    (JsValue.bool true).parseFloat = JSNum.nan ∧
    (deposit sampleDb 1 { amount := JsValue.bool true }).ops = [Op.findById 1] ∧
    (deposit sampleDb 1 { amount := JsValue.bool true }).res.status = 500 ∧
    invalidAmount (JsValue.string "Infinity") = false ∧
    (deposit sampleDb 1 { amount := JsValue.string "Infinity" }).res.status = 200 ∧
    ((deposit sampleDb 1 { amount := JsValue.string "Infinity" }).db.findById 1).map
      User.balance = some JSNum.posInf ∧
    invalidAmount (JsValue.string "0x10") = false ∧
    (JsValue.string "0x10").toNumber = JSNum.fin 16 ∧
    (JsValue.string "0x10").parseFloat = JSNum.fin 0 := by
  have h16 : (JsValue.string "0x10").toNumber = JSNum.fin 16 := by
    have : stringToNumber "0x10" = JSNum.fin ((16 : ℕ) : ℚ) := by decide
    simpa [JsValue.toNumber] using this
  have h0 : (JsValue.string "0x10").parseFloat = JSNum.fin 0 := by
    show (match scanDecimal ('0' :: 'x' :: ['1', '0']) with
      | some (v, _) => v
      | none => JSNum.nan) = JSNum.fin 0
    rw [scanDecimal_zero_letter 'x' ['1', '0'] (Or.inl rfl)]
  refine ⟨by decide, by decide, by decide, by decide, by decide, by decide, by decide,
    ?_, h16, h0⟩
  simp [invalidAmount, h16, JsValue.toBoolean, JSNum.isNaN, JSNum.le]

/-! ## Invariants of the store across a request -/

theorem JSNum.zero_le_add (a x : JSNum) (ha : (JSNum.fin 0).le a = true)
    (hx : (JSNum.fin 0).le x = true) : (JSNum.fin 0).le (a.add x) = true := by
  cases a <;> cases x <;> simp_all [JSNum.le, JSNum.add]
  exact add_nonneg ha hx

theorem JSNum.zero_le_sub (a x : JSNum) (hlt : a.lt x = false)
    (hn : (a.sub x).isNaN = false) : (JSNum.fin 0).le (a.sub x) = true := by
  cases a <;> cases x <;>
    simp_all [JSNum.le, JSNum.lt, JSNum.sub, JSNum.neg, JSNum.add, JSNum.isNaN]

theorem JSNum.add_nan (a : JSNum) : a.add JSNum.nan = JSNum.nan := by
  cases a <;> rfl

/-- An accepted amount whose sum with a stored number casts is non-negative. -/
theorem parseFloat_nonneg_of_add (v : JsValue) (a : JSNum) (h : invalidAmount v = false)
    (hn : (a.add v.parseFloat).isNaN = false) : (JSNum.fin 0).le v.parseFloat = true := by
  rcases parseFloat_nonneg v h with hx | hx
  · have : v.parseFloat = JSNum.nan := by
      cases hv : v.parseFloat <;> simp_all [JSNum.isNaN]
    rw [this, JSNum.add_nan] at hn
    cases hn
  · exact hx

theorem Db.mem_save (db : Db) (d u : User) (h : u ∈ (db.save d).users) :
    u = d ∨ u ∈ db.users := by
  unfold Db.save at h
  simp only [List.mem_map] at h
  obtain ⟨w, hw, rfl⟩ := h
  by_cases hid : (w.id == d.id) = true
  · left; simp [hid]
  · right; simpa [hid] using hw

theorem Db.findById_mem (db : Db) (i : Nat) (u : User) (h : db.findById i = some u) :
    u ∈ db.users := List.mem_of_find?_eq_some h

theorem Db.findOne_mem (db : Db) (e a : String) (u : User) (h : db.findOne e a = some u) :
    u ∈ db.users := List.mem_of_find?_eq_some h

/-- The users of the store after `deposit`: as before, or with the caller's
document replaced by one whose balance and total grew by a non-negative
amount. -/
theorem deposit_users (db : Db) (uid : Nat) (body : Body) :
    (deposit db uid body).db.users = db.users ∨
    ∃ user x, db.findById uid = some user ∧ (JSNum.fin 0).le x = true ∧
      (user.totalDeposited.add x).isNaN = false ∧
      (deposit db uid body).db.users =
        (db.save { user with
          balance := user.balance.add x,
          totalDeposited := user.totalDeposited.add x }).users := by
  cases hg : invalidAmount body.amount with
  | true => left; simp [deposit, hg]
  | false =>
  cases hu : db.findById uid with
  | none => left; simp [deposit, hg, hu]
  | some user =>
  cases h1 : castNumber (user.balance.add body.amount.parseFloat) with
  | none =>
    left
    cases h2 : castNumber (user.totalDeposited.add body.amount.parseFloat) <;>
      simp [deposit, hg, hu, h1, h2]
  | some b =>
  cases h2 : castNumber (user.totalDeposited.add body.amount.parseFloat) with
  | none => left; simp [deposit, hg, hu, h1, h2]
  | some t =>
  obtain ⟨n1, rfl⟩ := (castNumber_some_iff _ _).1 h1
  obtain ⟨n2, rfl⟩ := (castNumber_some_iff _ _).1 h2
  right
  refine ⟨user, body.amount.parseFloat, rfl, parseFloat_nonneg_of_add _ _ hg n1, n2, ?_⟩
  cases h3 : castNumber body.amount.parseFloat <;> simp [deposit, hg, hu, h1, h2, h3, Db.create]

/-- The users of the store after `withdraw`. -/
theorem withdraw_users (db : Db) (uid : Nat) (body : Body) :
    (withdraw db uid body).db.users = db.users ∨
    ∃ user x, db.findById uid = some user ∧ (JSNum.fin 0).le x = true ∧
      user.balance.lt x = false ∧ (user.balance.sub x).isNaN = false ∧
      (user.totalWithdrawn.add x).isNaN = false ∧
      (withdraw db uid body).db.users =
        (db.save { user with
          balance := user.balance.sub x,
          totalWithdrawn := user.totalWithdrawn.add x }).users := by
  cases hg : invalidAmount body.amount with
  | true => left; simp [withdraw, hg]
  | false =>
  cases hu : db.findById uid with
  | none => left; simp [withdraw, hg, hu]
  | some user =>
  cases hlt : user.balance.lt body.amount.parseFloat with
  | true => left; simp [withdraw, hg, hu, hlt]
  | false =>
  cases h1 : castNumber (user.balance.sub body.amount.parseFloat) with
  | none =>
    left
    cases h2 : castNumber (user.totalWithdrawn.add body.amount.parseFloat) <;>
      simp [withdraw, hg, hu, hlt, h1, h2]
  | some b =>
  cases h2 : castNumber (user.totalWithdrawn.add body.amount.parseFloat) with
  | none => left; simp [withdraw, hg, hu, hlt, h1, h2]
  | some t =>
  obtain ⟨n1, rfl⟩ := (castNumber_some_iff _ _).1 h1
  obtain ⟨n2, rfl⟩ := (castNumber_some_iff _ _).1 h2
  right
  refine ⟨user, body.amount.parseFloat, rfl, parseFloat_nonneg_of_add _ _ hg n2, hlt, n1, n2,
    ?_⟩
  cases h3 : castNumber body.amount.parseFloat <;>
    simp [withdraw, hg, hu, hlt, h1, h2, h3, Db.create]

/-- The users of the store after `transfer`: as before, or with the sender
debited, or with the sender debited and the recipient credited. -/
theorem transfer_users (env : Env) (db : Db) (uid : Nat) (body : Body) :
    (transfer env db uid body).db.users = db.users ∨
    ∃ sender recipient x, db.findById uid = some sender ∧ recipient ∈ db.users ∧
      recipient.id ≠ sender.id ∧ (JSNum.fin 0).le x = true ∧
      sender.balance.lt x = false ∧ (sender.balance.sub x).isNaN = false ∧
      (sender.totalWithdrawn.add x).isNaN = false ∧
      ((transfer env db uid body).db.users = (db.save (debited sender x)).users ∨
        ((recipient.balance.add x).isNaN = false ∧
          (recipient.totalDeposited.add x).isNaN = false ∧
          (transfer env db uid body).db.users =
            ((db.save (debited sender x)).save (credited recipient x)).users)) := by
  cases hg : (!body.recipientEmailOrAccount.toBoolean || invalidAmount body.amount) with
  | true => left; simp [transfer, hg]
  | false =>
  have hok : invalidAmount body.amount = false := by
    cases hx : invalidAmount body.amount
    · rfl
    · simp [hx] at hg
  cases hs : db.findById uid with
  | none => left; simp [transfer, hg, hs]
  | some sender =>
  cases hlt : sender.balance.lt body.amount.parseFloat with
  | true => left; simp [transfer, hg, hs, hlt]
  | false =>
  cases hk : body.recipientEmailOrAccount with
  | string key =>
    rw [hk] at hg
    cases hr : db.findOne (env.toLowerCase key) key with
    | none => left; simp [transfer, hk, hg, hs, hlt, hr]
    | some recipient =>
    by_cases hid : recipient.id = sender.id
    · left; simp [transfer, hk, hg, hs, hlt, hr, hid]
    · cases h1 : castNumber (sender.balance.sub body.amount.parseFloat) with
      | none =>
        left
        cases h2 : castNumber (sender.totalWithdrawn.add body.amount.parseFloat) <;>
          simp [transfer, hk, hg, hs, hlt, hr, hid, h1, h2]
      | some sb =>
      cases h2 : castNumber (sender.totalWithdrawn.add body.amount.parseFloat) with
      | none => left; simp [transfer, hk, hg, hs, hlt, hr, hid, h1, h2]
      | some sw =>
      obtain ⟨n1, rfl⟩ := (castNumber_some_iff _ _).1 h1
      obtain ⟨n2, rfl⟩ := (castNumber_some_iff _ _).1 h2
      right
      refine ⟨sender, recipient, body.amount.parseFloat, rfl, Db.findOne_mem _ _ _ _ hr, hid,
        parseFloat_nonneg_of_add _ _ hok n2, hlt, n1, n2, ?_⟩
      cases h3 : castNumber (recipient.balance.add body.amount.parseFloat) with
      | none =>
        left
        cases h4 : castNumber (recipient.totalDeposited.add body.amount.parseFloat) <;>
          simp [transfer, hk, hg, hs, hlt, hr, hid, h1, h2, h3, h4, debited]
      | some rb =>
      cases h4 : castNumber (recipient.totalDeposited.add body.amount.parseFloat) with
      | none => left; simp [transfer, hk, hg, hs, hlt, hr, hid, h1, h2, h3, h4, debited]
      | some rd =>
      obtain ⟨n3, rfl⟩ := (castNumber_some_iff _ _).1 h3
      obtain ⟨n4, rfl⟩ := (castNumber_some_iff _ _).1 h4
      right
      refine ⟨n3, n4, ?_⟩
      cases h5 : castNumber body.amount.parseFloat <;>
        simp [transfer, hk, hg, hs, hlt, hr, hid, h1, h2, h3, h4, h5, debited, credited,
          Db.create]
  | undefined => left; simp [transfer, hk, hs, hlt, JsValue.toBoolean]
  | null => left; simp [transfer, hk, hs, hlt, JsValue.toBoolean]
  | bool b => left; simp only [transfer, hk, hs, hlt]; split <;> rfl
  | number n => left; simp only [transfer, hk, hs, hlt]; split <;> rfl
  | array n j => left; simp only [transfer, hk, hs, hlt]; split <;> rfl
  | object => left; simp only [transfer, hk, hs, hlt]; split <;> rfl

/-- The users of the store after `updateProfile`: as before, or with the
caller's name and phone replaced. -/
theorem updateProfile_users (db : Db) (uid : Nat) (body : Body) :
    (updateProfile db uid body).db.users = db.users ∨
    ∃ user name phone, db.findById uid = some user ∧
      (updateProfile db uid body).db.users =
        (db.save { user with name := name, phone := phone }).users := by
  cases hu : db.findById uid with
  | none => left; simp [updateProfile, hu]
  | some user =>
  cases h1 : trimmedOr body.name user.name with
  | none => left; cases h2 : trimmedOr body.phone user.phone <;> simp [updateProfile, hu, h1, h2]
  | some name =>
  cases h2 : trimmedOr body.phone user.phone with
  | none => left; simp [updateProfile, hu, h1, h2]
  | some phone =>
  right
  exact ⟨user, name, phone, rfl, by simp [updateProfile, hu, h1, h2]⟩

/-- The users of the store after `changePassword`: as before, or with the
caller's credential replaced. -/
theorem changePassword_users (env : Env) (db : Db) (uid : Nat) (body : Body) :
    (changePassword env db uid body).db.users = db.users ∨
    ∃ user credential, db.findById uid = some user ∧
      (changePassword env db uid body).db.users =
        (db.save { user with password := credential }).users := by
  unfold changePassword
  simp only
  split
  · left; rfl
  · split
    · left; rfl
    · split
      · left; rfl
      · cases hu : db.findById uid with
        | none => left; rfl
        | some user =>
        cases hc : env.comparePassword body.currentPassword user.password with
        | none => left; simp [hc]
        | some ok =>
        cases ok with
        | false => left; simp [hc]
        | true =>
        cases hp : env.storePassword body.newPassword with
        | none => left; simp [hc, hp]
        | some credential => right; exact ⟨user, credential, rfl, by simp [hc, hp]⟩

theorem Db.forall_save (P : User → Prop) (db : Db) (d : User)
    (hall : ∀ u ∈ db.users, P u) (hd : P d) : ∀ u ∈ (db.save d).users, P u := by
  intro u hu
  rcases Db.mem_save db d u hu with rfl | h
  · exact hd
  · exact hall u h

/-- Claim C9: if every stored balance is at least 0 before a request to deposit,
withdraw, transfer, updateProfile or changePassword, every stored balance is at
least 0 after it, whatever the body and whoever the caller. -/
theorem balance_nonneg_invariant (env : Env) (db : Db) (uid : Nat) (route : Route)
    (body : Body) (hinv : ∀ u ∈ db.users, (JSNum.fin 0).le u.balance = true) :
    ∀ u ∈ (handle env db uid route body).db.users, (JSNum.fin 0).le u.balance = true := by
  cases route with
  | deposit =>
    rcases deposit_users db uid body with h | ⟨user, x, hu, hx, _, h⟩
    · simpa [handle, h] using hinv
    · simp only [handle, h]
      exact Db.forall_save _ db _ hinv
        (JSNum.zero_le_add _ _ (hinv user (Db.findById_mem db uid user hu)) hx)
  | withdraw =>
    rcases withdraw_users db uid body with h | ⟨user, x, _, _, hlt, hn, _, h⟩
    · simpa [handle, h] using hinv
    · simp only [handle, h]
      exact Db.forall_save _ db _ hinv (JSNum.zero_le_sub _ _ hlt hn)
  | transfer =>
    rcases transfer_users env db uid body with
      h | ⟨sender, recipient, x, _, hr, _, hx, hlt, hn, _, h | ⟨_, _, h⟩⟩
    · simpa [handle, h] using hinv
    · simp only [handle, h]
      exact Db.forall_save _ db _ hinv (JSNum.zero_le_sub _ _ hlt hn)
    · simp only [handle, h]
      exact Db.forall_save _ _ _
        (Db.forall_save _ db _ hinv (JSNum.zero_le_sub _ _ hlt hn))
        (JSNum.zero_le_add _ _ (hinv recipient hr) hx)
  | updateProfile =>
    rcases updateProfile_users db uid body with h | ⟨user, name, phone, hu, h⟩
    · simpa [handle, h] using hinv
    · simp only [handle, h]
      exact Db.forall_save _ db _ hinv (hinv user (Db.findById_mem db uid user hu))
  | changePassword =>
    rcases changePassword_users env db uid body with h | ⟨user, credential, hu, h⟩
    · simpa [handle, h] using hinv
    · simp only [handle, h]
      exact Db.forall_save _ db _ hinv (hinv user (Db.findById_mem db uid user hu))

theorem balance_nonneg_invariant_witness :
    (JSNum.fin 0).le (asha.balance.sub (JSNum.fin 500)) = true :=
  balance_nonneg_invariant sampleEnv sampleDb 1 Route.withdraw
    { amount := JsValue.number (JSNum.fin 500) } (by decide)
    { asha with
      balance := asha.balance.sub (JSNum.fin 500),
      totalWithdrawn := asha.totalWithdrawn.add (JSNum.fin 500) }
    (List.Mem.head _)

theorem Db.findById_congr (db1 db2 : Db) (h : db1.users = db2.users) (i : Nat) :
    db1.findById i = db2.findById i := by
  unfold Db.findById
  rw [h]

theorem find?_id_of_mem (us : List User) (hids : (us.map User.id).Nodup) (u : User)
    (hu : u ∈ us) : us.find? (fun w => w.id == u.id) = some u := by
  induction us with
  | nil => cases hu
  | cons w ws ih =>
    rw [List.map_cons, List.nodup_cons] at hids
    rw [List.find?_cons]
    rcases List.mem_cons.1 hu with rfl | hmem
    · simp
    · have hne : w.id ≠ u.id := by
        intro e
        exact hids.1 (e ▸ List.mem_map_of_mem User.id hmem)
      have hb : (w.id == u.id) = false := by simpa using hne
      simp only [hb]
      exact ih hids.2 hmem

theorem Db.findById_of_mem (db : Db) (hids : (db.users.map User.id).Nodup) (u : User)
    (hu : u ∈ db.users) : db.findById u.id = some u :=
  find?_id_of_mem db.users hids u hu

theorem JSNum.le_refl_of_number (x : JSNum) (h : x.isNaN = false) : x.le x = true := by
  cases x <;> simp_all [JSNum.le, JSNum.isNaN]

theorem JSNum.le_add (a x : JSNum) (hx : (JSNum.fin 0).le x = true)
    (hn : (a.add x).isNaN = false) : a.le (a.add x) = true := by
  cases a <;> cases x <;> simp_all [JSNum.le, JSNum.add, JSNum.isNaN]

theorem totalsGrow_save (db : Db) (d user : User)
    (hnum : ∀ u ∈ db.users, u.totalDeposited.isNaN = false ∧ u.totalWithdrawn.isNaN = false)
    (hfind : db.findById d.id = some user) (hd : TotalsGrow user d) (i : Nat) (u : User)
    (hu : db.findById i = some u) :
    ∃ v, (db.save d).findById i = some v ∧ TotalsGrow u v := by
  rw [Db.findById_save]
  by_cases hi : i = d.id
  · subst hi
    rw [hfind] at hu
    cases hu
    exact ⟨d, by simp [hfind], hd⟩
  · have := hnum u (Db.findById_mem db i u hu)
    exact ⟨u, by simp [hi, hu],
      JSNum.le_refl_of_number _ this.1, JSNum.le_refl_of_number _ this.2⟩

theorem JSNum.le_chain (a b c : JSNum) (h1 : a.le b = true) (h2 : b.le c = true) :
    a.le c = true := by
  cases a <;> cases b <;> cases c <;> simp_all [JSNum.le]
  exact le_trans h1 h2

theorem TotalsGrow.trans {u v w : User} (h1 : TotalsGrow u v) (h2 : TotalsGrow v w) :
    TotalsGrow u w :=
  ⟨JSNum.le_chain _ _ _ h1.1 h2.1, JSNum.le_chain _ _ _ h1.2 h2.2⟩

theorem totalsGrow_refl (db : Db)
    (hnum : ∀ u ∈ db.users, u.totalDeposited.isNaN = false ∧ u.totalWithdrawn.isNaN = false)
    (i : Nat) (u : User) (hu : db.findById i = some u) : TotalsGrow u u :=
  have := hnum u (Db.findById_mem db i u hu)
  ⟨JSNum.le_refl_of_number _ this.1, JSNum.le_refl_of_number _ this.2⟩

/-- Claim C10: across a request to deposit, withdraw, transfer, updateProfile or
changePassword, every account of the store is still there afterwards and its
totalDeposited and totalWithdrawn are each at least what they were (document
ids are distinct and the stored totals are numbers). -/
theorem totals_monotone (env : Env) (db : Db) (uid : Nat) (route : Route) (body : Body)
    (hids : (db.users.map User.id).Nodup)
    (hnum : ∀ u ∈ db.users, u.totalDeposited.isNaN = false ∧ u.totalWithdrawn.isNaN = false)
    (i : Nat) (u : User) (hu : db.findById i = some u) :
    ∃ v, (handle env db uid route body).db.findById i = some v ∧
      u.totalDeposited.le v.totalDeposited = true ∧
      u.totalWithdrawn.le v.totalWithdrawn = true := by
  have hsame : ∀ out : Outcome, out.db.users = db.users →
      ∃ v, out.db.findById i = some v ∧ TotalsGrow u v := fun out h =>
    ⟨u, by rw [Db.findById_congr _ _ h, hu], totalsGrow_refl db hnum i u hu⟩
  have hone : ∀ (out : Outcome) (user d : User), db.findById uid = some user →
      d.id = user.id → TotalsGrow user d → out.db.users = (db.save d).users →
      ∃ v, out.db.findById i = some v ∧ TotalsGrow u v := by
    intro out user d hf hid hg h
    rw [Db.findById_congr _ _ h]
    have hfd : db.findById d.id = some user := by
      rw [hid, Db.findById_id db uid user hf]; exact hf
    exact totalsGrow_save db d user hnum hfd hg i u hu
  cases route with
  | deposit =>
    rcases deposit_users db uid body with h | ⟨user, x, hf, hx, hn, h⟩
    · exact hsame _ h
    · have hself := totalsGrow_refl db hnum uid user hf
      exact hone _ user
        { user with balance := user.balance.add x, totalDeposited := user.totalDeposited.add x }
        hf rfl ⟨JSNum.le_add _ _ hx hn, hself.2⟩ h
  | withdraw =>
    rcases withdraw_users db uid body with h | ⟨user, x, hf, hx, _, _, hn, h⟩
    · exact hsame _ h
    · have hself := totalsGrow_refl db hnum uid user hf
      exact hone _ user
        { user with balance := user.balance.sub x, totalWithdrawn := user.totalWithdrawn.add x }
        hf rfl ⟨hself.1, JSNum.le_add _ _ hx hn⟩ h
  | transfer =>
    rcases transfer_users env db uid body with
      h | ⟨sender, recipient, x, hf, hr, hid, hx, _, _, hn, h | ⟨_, hn4, h⟩⟩
    · exact hsame _ h
    · have hself := totalsGrow_refl db hnum uid sender hf
      exact hone _ sender (debited sender x) hf rfl ⟨hself.1, JSNum.le_add _ _ hx hn⟩ h
    · have hself := totalsGrow_refl db hnum uid sender hf
      have hfs : db.findById (debited sender x).id = some sender := by
        show db.findById sender.id = some sender
        rw [Db.findById_id db uid sender hf]; exact hf
      have hsg : TotalsGrow sender (debited sender x) := ⟨hself.1, JSNum.le_add _ _ hx hn⟩
      obtain ⟨v, hv, hgv⟩ := totalsGrow_save db (debited sender x) sender hnum hfs hsg i u hu
      have hnum1 : ∀ w ∈ (db.save (debited sender x)).users,
          w.totalDeposited.isNaN = false ∧ w.totalWithdrawn.isNaN = false :=
        Db.forall_save _ db _ hnum ⟨(hnum sender (Db.findById_mem db uid sender hf)).1, hn⟩
      have hfr : (db.save (debited sender x)).findById (credited recipient x).id =
          some recipient := by
        show (db.save (debited sender x)).findById recipient.id = some recipient
        rw [Db.findById_save, if_neg (by exact hid)]
        exact Db.findById_of_mem db hids recipient hr
      have hrn := hnum recipient hr
      have hrg : TotalsGrow recipient (credited recipient x) :=
        ⟨JSNum.le_add _ _ hx hn4, JSNum.le_refl_of_number _ hrn.2⟩
      obtain ⟨w, hw, hgw⟩ := totalsGrow_save (db.save (debited sender x)) (credited recipient x)
        recipient hnum1 hfr hrg i v hv
      refine ⟨w, ?_, hgv.trans hgw⟩
      show (transfer env db uid body).db.findById i = some w
      rw [Db.findById_congr _ _ h]
      exact hw
  | updateProfile =>
    rcases updateProfile_users db uid body with h | ⟨user, name, phone, hf, h⟩
    · exact hsame _ h
    · exact hone _ user { user with name := name, phone := phone } hf rfl
        (totalsGrow_refl db hnum uid user hf) h
  | changePassword =>
    rcases changePassword_users env db uid body with h | ⟨user, credential, hf, h⟩
    · exact hsame _ h
    · exact hone _ user { user with password := credential } hf rfl
        (totalsGrow_refl db hnum uid user hf) h

theorem totals_monotone_witness :
    ∃ v, (handle sampleEnv sampleDb 1 Route.transfer
        { recipientEmailOrAccount := JsValue.string "b@x.com",
          amount := JsValue.number (JSNum.fin 200) }).db.findById 2 = some v ∧
      ben.totalDeposited.le v.totalDeposited = true ∧
      ben.totalWithdrawn.le v.totalWithdrawn = true :=
  totals_monotone sampleEnv sampleDb 1 Route.transfer
    { recipientEmailOrAccount := JsValue.string "b@x.com",
      amount := JsValue.number (JSNum.fin 200) }
    (by decide) (by decide) 2 ben rfl

/-! ## Records of a zero amount -/

theorem parseFloat_hex (r : List Char) :
    (JsValue.string (String.mk ('0' :: 'x' :: r))).parseFloat = JSNum.fin 0 := by
  show (match scanDecimal (('0' :: 'x' :: r).dropWhile isStrWhiteSpaceChar) with
    | some (v, _) => v
    | none => JSNum.nan) = JSNum.fin 0
  have : ('0' :: 'x' :: r).dropWhile isStrWhiteSpaceChar = '0' :: 'x' :: r := by
    rw [List.dropWhile_cons_of_neg (by decide)]
  rw [this, scanDecimal_zero_letter 'x' r (Or.inl rfl)]

theorem invalidAmount_hex16 : invalidAmount (JsValue.string "0x10") = false := by
  have h16 : (JsValue.string "0x10").toNumber = JSNum.fin 16 := by
    have : stringToNumber "0x10" = JSNum.fin ((16 : ℕ) : ℚ) := by decide
    simpa [JsValue.toNumber] using this
  simp [invalidAmount, h16, JsValue.toBoolean, JSNum.isNaN, JSNum.le]

/-- Claim C11, at an input the validation lets through: the amount "0x10" passes
the guard of `deposit` (its Number value is 16), the request is answered 200,
and the one record appended has amount 0, which is not greater than 0. -/
theorem deposit_records_zero_amount :
    invalidAmount (JsValue.string "0x10") = false ∧
    (deposit sampleDb 1 { amount := JsValue.string "0x10" }).res.status = 200 ∧
    (deposit sampleDb 1 { amount := JsValue.string "0x10" }).db.transactions =
      [{ userId := 1, type := TransactionType.deposit, amount := JSNum.fin 0,
         recipient := none, recipientAccountNumber := none, status := "completed" }] ∧
    (JSNum.fin 0).lt (JSNum.fin 0) = false := by
  have h0 : (JsValue.string "0x10").parseFloat = JSNum.fin 0 := parseFloat_hex ['1', '0']
  have hu : sampleDb.findById 1 = some asha := rfl
  have hb : castNumber (asha.balance.add (JSNum.fin 0)) = some (JSNum.fin 500) := by
    simp [castNumber, asha, JSNum.add, JSNum.isNaN]
  have ht : castNumber (asha.totalDeposited.add (JSNum.fin 0)) = some (JSNum.fin 500) := by
    simp [castNumber, asha, JSNum.add, JSNum.isNaN]
  have hz : castNumber (JSNum.fin 0) = some (JSNum.fin 0) := rfl
  refine ⟨invalidAmount_hex16, ?_, ?_, by decide⟩
  · simp only [deposit, invalidAmount_hex16, h0, hu, hb, ht, hz]
    rfl
  · simp only [deposit, invalidAmount_hex16, h0, hu, hb, ht, hz]
    rfl

/-! ## Registration -/

theorem Db.findByEmail_isSome (db : Db) (email : String) (u : User) (hu : u ∈ db.users)
    (he : u.email = email) : ∃ v, db.findByEmail email = some v := by
  cases hf : db.findByEmail email with
  | some v => exact ⟨v, rfl⟩
  | none =>
    have := List.find?_eq_none.1 hf u hu
    simp [he] at this

/-- Claim C12, as stated, fails: the email "A@X.com" equals a registered one up
to letter case, yet with a password of three characters the request is answered
400 'Password must be at least 6 characters', not 'Email already registered'. -/
theorem register_duplicate_other_message :
    asha ∈ sampleDb.users ∧ asha.email = sampleAuthEnv.toLowerCase "A@X.com" ∧
    register sampleAuthEnv sampleDb 3 ["KB000000000303"]
        { name := JsValue.string "Zed", email := JsValue.string "A@X.com",
          phone := JsValue.string "777", accountType := JsValue.string "savings",
          password := JsValue.string "abc", confirmPassword := JsValue.string "abc" } =
      some ⟨sampleDb, authReply 400 "Password must be at least 6 characters"⟩ := by
  decide

/-- The retry loop exits as soon as the generator produces a number that no
account holds. -/
theorem uniqueAccountNumber_exits (db : Db) (cs : List String) (c : String) (hc : c ∈ cs)
    (hfree : ∀ u ∈ db.users, u.accountNumber ≠ c) :
    ∃ a, uniqueAccountNumber db cs = some a := by
  induction cs with
  | nil => cases hc
  | cons d rest ih =>
    unfold uniqueAccountNumber
    cases hd : db.findByAccountNumber d with
    | none => exact ⟨d, rfl⟩
    | some v =>
      rcases List.mem_cons.1 hc with rfl | hmem
      · have hv := List.find?_some hd
        have hm := List.mem_of_find?_eq_some hd
        exact absurd (by simpa using hv) (hfree v hm)
      · exact ih hmem

theorem Db.findByAccountNumber_none (db : Db) (a : String)
    (h : db.findByAccountNumber a = none) : ∀ u ∈ db.users, u.accountNumber ≠ a := by
  intro u hu
  have := List.find?_eq_none.1 h u hu
  simpa using this

/-- The shape of a registration that answered 201. -/
theorem register_created (env : AuthEnv) (db : Db) (newId : Nat) (candidates : List String)
    (body : AuthBody) (out : AuthOutcome)
    (h : register env db newId candidates body = some out) (h201 : out.res.status = 201) :
    ∃ e n p kind credential accountNumber,
      body.email = JsValue.string e ∧ body.name = JsValue.string n ∧
      body.phone = JsValue.string p ∧
      db.findByEmail (env.toLowerCase e) = none ∧
      uniqueAccountNumber db candidates = some accountNumber ∧
      out.db.users = db.users ++
        [{ id := newId, name := trim n, email := trim (env.toLowerCase e), phone := trim p,
           accountType := kind, accountNumber := accountNumber, password := credential,
           balance := JSNum.fin 0, totalDeposited := JSNum.fin 0,
           totalWithdrawn := JSNum.fin 0 }] ∧
      out.db.transactions = db.transactions := by
  unfold register at h
  simp only at h
  split at h
  · cases h; simp [authReply] at h201
  split at h
  · cases h; simp [authReply] at h201
  split at h
  · cases h; simp [authReply] at h201
  split at h
  · cases h; simp [authReply] at h201
  split at h
  · rename_i e he
    split at h
    · cases h; simp [authReply] at h201
    · rename_i hfe
      split at h
      · cases h
      · rename_i accountNumber hacc
        split at h
        · split at h
          · cases h; simp [authReply] at h201
          · cases h
            rename_i n p kind credential hn hp _ _ _ db1 hdb1
            unfold Db.createUser at hdb1
            split at hdb1
            · cases hdb1
            · cases hdb1
              exact ⟨e, n, p, kind, credential, accountNumber, he, hn, hp, hfe, hacc, rfl, rfl⟩
        · cases h; simp [authReply] at h201
  · cases h; simp [authReply] at h201

/-! ## Login -/

/-- Claim C15: a login with a non-empty email that no account carries, and a
login with a non-empty email of an account whose credential the password does
not verify against, get the same response: 401 'Invalid email or password', no
user object and no cookie; neither changes the store. -/
theorem login_failures_identical (env : AuthEnv) (db : Db) (unknown known : AuthBody)
    (e1 e2 : String) (u : User)
    (h1 : unknown.email = JsValue.string e1) (h1e : e1 ≠ "")
    (h1p : unknown.password.toBoolean = true)
    (h1none : db.findByEmail (env.toLowerCase e1) = none)
    (h2 : known.email = JsValue.string e2) (h2e : e2 ≠ "")
    (h2p : known.password.toBoolean = true)
    (h2some : db.findByEmail (env.toLowerCase e2) = some u)
    (h2wrong : env.comparePassword known.password u.password = some false) :
    (login env db unknown).res = (login env db known).res ∧
    (login env db unknown).res = authReply 401 "Invalid email or password" ∧
    (login env db unknown).res.cookie = none ∧ (login env db known).res.cookie = none ∧
    (login env db unknown).db = db ∧ (login env db known).db = db := by
  have t1 : (JsValue.string e1).toBoolean = true := by simpa [JsValue.toBoolean] using h1e
  have t2 : (JsValue.string e2).toBoolean = true := by simpa [JsValue.toBoolean] using h2e
  have ha : login env db unknown = ⟨db, authReply 401 "Invalid email or password"⟩ := by
    simp [login, h1, h1p, h1none, t1]
  have hb : login env db known = ⟨db, authReply 401 "Invalid email or password"⟩ := by
    simp [login, h2, h2p, h2some, h2wrong, t2]
  rw [ha, hb]
  exact ⟨rfl, rfl, rfl, rfl, rfl, rfl⟩

theorem login_failures_identical_witness :
    (login sampleAuthEnv sampleDb
        { email := JsValue.string "nobody@x.com", password := JsValue.string "secret1" }).res =
      (login sampleAuthEnv sampleDb
        { email := JsValue.string "A@x.com", password := JsValue.string "wrong" }).res ∧
    (login sampleAuthEnv sampleDb
        { email := JsValue.string "nobody@x.com", password := JsValue.string "secret1" }).res =
      authReply 401 "Invalid email or password" :=
  have h := login_failures_identical sampleAuthEnv sampleDb
    { email := JsValue.string "nobody@x.com", password := JsValue.string "secret1" }
    { email := JsValue.string "A@x.com", password := JsValue.string "wrong" }
    "nobody@x.com" "A@x.com" asha rfl (by decide) (by decide) (by decide) rfl (by decide)
    (by decide) (by decide) (by decide)
  ⟨h.1, h.2.1⟩

/-! ## The accounting identity -/

theorem JSNum.credit_identity (b td tw x : JSNum) (h : b = td.sub tw) :
    b.add x = (td.add x).sub tw := by
  subst h
  cases td <;> cases tw <;> cases x <;> simp [JSNum.sub, JSNum.neg, JSNum.add]
  ring

theorem JSNum.debit_identity (b td tw x : JSNum) (h : b = td.sub tw) :
    b.sub x = td.sub (tw.add x) := by
  subst h
  cases td <;> cases tw <;> cases x <;> simp [JSNum.sub, JSNum.neg, JSNum.add]
  ring

/-- The users after `deposit`, with the casts that a save went through. -/
theorem deposit_saved (db : Db) (uid : Nat) (body : Body) :
    (deposit db uid body).db.users = db.users ∨
    ∃ user, db.findById uid = some user ∧
      (user.balance.add body.amount.parseFloat).isNaN = false ∧
      (deposit db uid body).db.users =
        (db.save { user with
          balance := user.balance.add body.amount.parseFloat,
          totalDeposited := user.totalDeposited.add body.amount.parseFloat }).users := by
  cases hg : invalidAmount body.amount with
  | true => left; simp [deposit, hg]
  | false =>
  cases hu : db.findById uid with
  | none => left; simp [deposit, hg, hu]
  | some user =>
  cases h1 : castNumber (user.balance.add body.amount.parseFloat) with
  | none =>
    left
    cases h2 : castNumber (user.totalDeposited.add body.amount.parseFloat) <;>
      simp [deposit, hg, hu, h1, h2]
  | some b =>
  cases h2 : castNumber (user.totalDeposited.add body.amount.parseFloat) with
  | none => left; simp [deposit, hg, hu, h1, h2]
  | some t =>
  obtain ⟨n1, rfl⟩ := (castNumber_some_iff _ _).1 h1
  obtain ⟨_, rfl⟩ := (castNumber_some_iff _ _).1 h2
  right
  refine ⟨user, rfl, n1, ?_⟩
  cases h3 : castNumber body.amount.parseFloat <;> simp [deposit, hg, hu, h1, h2, h3, Db.create]

/-- The users after `withdraw`, with the casts that a save went through. -/
theorem withdraw_saved (db : Db) (uid : Nat) (body : Body) :
    (withdraw db uid body).db.users = db.users ∨
    ∃ user, db.findById uid = some user ∧
      (user.balance.sub body.amount.parseFloat).isNaN = false ∧
      (withdraw db uid body).db.users =
        (db.save { user with
          balance := user.balance.sub body.amount.parseFloat,
          totalWithdrawn := user.totalWithdrawn.add body.amount.parseFloat }).users := by
  cases hg : invalidAmount body.amount with
  | true => left; simp [withdraw, hg]
  | false =>
  cases hu : db.findById uid with
  | none => left; simp [withdraw, hg, hu]
  | some user =>
  cases hlt : user.balance.lt body.amount.parseFloat with
  | true => left; simp [withdraw, hg, hu, hlt]
  | false =>
  cases h1 : castNumber (user.balance.sub body.amount.parseFloat) with
  | none =>
    left
    cases h2 : castNumber (user.totalWithdrawn.add body.amount.parseFloat) <;>
      simp [withdraw, hg, hu, hlt, h1, h2]
  | some b =>
  cases h2 : castNumber (user.totalWithdrawn.add body.amount.parseFloat) with
  | none => left; simp [withdraw, hg, hu, hlt, h1, h2]
  | some t =>
  obtain ⟨n1, rfl⟩ := (castNumber_some_iff _ _).1 h1
  obtain ⟨_, rfl⟩ := (castNumber_some_iff _ _).1 h2
  right
  refine ⟨user, rfl, n1, ?_⟩
  cases h3 : castNumber body.amount.parseFloat <;>
    simp [withdraw, hg, hu, hlt, h1, h2, h3, Db.create]

theorem balanced_credit (u : User) (x : JSNum) (h : Balanced u)
    (hn : (u.balance.add x).isNaN = false) :
    Balanced { u with balance := u.balance.add x, totalDeposited := u.totalDeposited.add x } :=
  ⟨hn, JSNum.credit_identity _ _ _ _ h.2⟩

theorem balanced_debit (u : User) (x : JSNum) (h : Balanced u)
    (hn : (u.balance.sub x).isNaN = false) :
    Balanced { u with balance := u.balance.sub x, totalWithdrawn := u.totalWithdrawn.add x } :=
  ⟨hn, JSNum.debit_identity _ _ _ _ h.2⟩

/-- Every request to the account routes keeps the identity of every account. -/
theorem handle_balanced (env : Env) (db : Db) (uid : Nat) (route : Route) (body : Body)
    (hinv : ∀ u ∈ db.users, Balanced u) :
    ∀ u ∈ (handle env db uid route body).db.users, Balanced u := by
  cases route with
  | deposit =>
    rcases deposit_saved db uid body with h | ⟨user, hu, hn, h⟩
    · simpa [handle, h] using hinv
    · simp only [handle, h]
      exact Db.forall_save _ db _ hinv
        (balanced_credit user _ (hinv user (Db.findById_mem db uid user hu)) hn)
  | withdraw =>
    rcases withdraw_saved db uid body with h | ⟨user, hu, hn, h⟩
    · simpa [handle, h] using hinv
    · simp only [handle, h]
      exact Db.forall_save _ db _ hinv
        (balanced_debit user _ (hinv user (Db.findById_mem db uid user hu)) hn)
  | transfer =>
    rcases transfer_users env db uid body with
      h | ⟨sender, recipient, x, hs, hr, _, _, _, hn, _, h | ⟨hn3, _, h⟩⟩
    · simpa [handle, h] using hinv
    · simp only [handle, h]
      exact Db.forall_save _ db _ hinv
        (balanced_debit sender x (hinv sender (Db.findById_mem db uid sender hs)) hn)
    · simp only [handle, h]
      exact Db.forall_save _ _ _
        (Db.forall_save _ db _ hinv
          (balanced_debit sender x (hinv sender (Db.findById_mem db uid sender hs)) hn))
        (balanced_credit recipient x (hinv recipient hr) hn3)
  | updateProfile =>
    rcases updateProfile_users db uid body with h | ⟨user, name, phone, hu, h⟩
    · simpa [handle, h] using hinv
    · simp only [handle, h]
      exact Db.forall_save _ db _ hinv (hinv user (Db.findById_mem db uid user hu))
  | changePassword =>
    rcases changePassword_users env db uid body with h | ⟨user, credential, hu, h⟩
    · simpa [handle, h] using hinv
    · simp only [handle, h]
      exact Db.forall_save _ db _ hinv (hinv user (Db.findById_mem db uid user hu))

/-- A registration leaves the store as it was unless it answers 201. -/
theorem register_db (env : AuthEnv) (db : Db) (newId : Nat) (candidates : List String)
    (body : AuthBody) (out : AuthOutcome)
    (h : register env db newId candidates body = some out) :
    out.db = db ∨ out.res.status = 201 := by
  unfold register at h
  simp only at h
  split at h
  · cases h; exact Or.inl rfl
  split at h
  · cases h; exact Or.inl rfl
  split at h
  · cases h; exact Or.inl rfl
  split at h
  · cases h; exact Or.inl rfl
  split at h
  · split at h
    · cases h; exact Or.inl rfl
    · split at h
      · cases h
      · split at h
        · split at h
          · cases h; exact Or.inl rfl
          · cases h; exact Or.inr rfl
        · cases h; exact Or.inl rfl
  · cases h; exact Or.inl rfl

theorem register_balanced (env : AuthEnv) (db : Db) (newId : Nat) (candidates : List String)
    (body : AuthBody) (out : AuthOutcome)
    (h : register env db newId candidates body = some out)
    (hinv : ∀ u ∈ db.users, Balanced u) : ∀ u ∈ out.db.users, Balanced u := by
  rcases register_db env db newId candidates body out h with hdb | h201
  · rw [hdb]; exact hinv
  · obtain ⟨e, n, p, kind, credential, accountNumber, _, _, _, _, _, husers, _⟩ :=
      register_created env db newId candidates body out h h201
    rw [husers]
    intro u hu
    rcases List.mem_append.1 hu with hold | hnew
    · exact hinv u hold
    · rw [List.mem_singleton] at hnew
      subst hnew
      exact ⟨rfl, by simp [JSNum.sub, JSNum.neg, JSNum.add]⟩

/-- Claim C17: every request to deposit, withdraw, transfer, updateProfile or
changePassword keeps, for every account, balance = totalDeposited -
totalWithdrawn with the balance a number; hence the identity holds for every
account of every store reachable, by registrations and such requests, from
accounts whose balance and totals are 0. -/
theorem accounting_identity (env : AuthEnv) :
    (∀ (db : Db) (uid : Nat) (route : Route) (body : Body),
      (∀ u ∈ db.users, Balanced u) →
      ∀ u ∈ (handle env.toEnv db uid route body).db.users, Balanced u) ∧
    (∀ db, Reachable env db → ∀ u ∈ db.users, Balanced u) := by
  refine ⟨fun db uid route body hinv => handle_balanced env.toEnv db uid route body hinv, ?_⟩
  intro db hreach
  induction hreach with
  | start db h =>
    intro u hu
    obtain ⟨hb, ht, hw⟩ := h u hu
    refine ⟨by rw [hb]; rfl, ?_⟩
    rw [hb, ht, hw]
    simp [JSNum.sub, JSNum.neg, JSNum.add]
  | register db newId candidates body out _ hout ih =>
    exact register_balanced env db newId candidates body out hout ih
  | account db uid route body _ ih =>
    exact handle_balanced env.toEnv db uid route body ih

theorem sampleDb_balanced : ∀ u ∈ sampleDb.users, Balanced u := by
  intro u hu
  simp only [sampleDb, List.mem_cons, List.mem_singleton, List.not_mem_nil, or_false] at hu
  rcases hu with rfl | rfl <;>
    simp [Balanced, asha, ben, JSNum.sub, JSNum.neg, JSNum.add, JSNum.isNaN]

theorem accounting_identity_witness :
    Balanced
      { asha with
        balance := asha.balance.add (JSNum.fin 200),
        totalDeposited := asha.totalDeposited.add (JSNum.fin 200) } :=
  (accounting_identity sampleAuthEnv).1 sampleDb 1 Route.deposit
    { amount := JsValue.number (JSNum.fin 200) } sampleDb_balanced _ (List.Mem.head _)

/-! ## Rejections leave no trace -/

theorem deposit_rejected (db : Db) (uid : Nat) (body : Body)
    (h : (deposit db uid body).res.status = 400 ∨ (deposit db uid body).res.status = 404) :
    (deposit db uid body).db = db ∧ ∀ op ∈ (deposit db uid body).ops, op.isRead = true := by
  unfold deposit at h ⊢
  simp only at h ⊢
  repeat' split
  all_goals simp_all [reply, Op.isRead]

theorem withdraw_rejected (db : Db) (uid : Nat) (body : Body)
    (h : (withdraw db uid body).res.status = 400 ∨ (withdraw db uid body).res.status = 404) :
    (withdraw db uid body).db = db ∧ ∀ op ∈ (withdraw db uid body).ops, op.isRead = true := by
  unfold withdraw at h ⊢
  simp only at h ⊢
  repeat' split
  all_goals simp_all [reply, Op.isRead]

theorem transfer_rejected (env : Env) (db : Db) (uid : Nat) (body : Body)
    (h : (transfer env db uid body).res.status = 400 ∨
      (transfer env db uid body).res.status = 404) :
    (transfer env db uid body).db = db ∧
      ∀ op ∈ (transfer env db uid body).ops, op.isRead = true := by
  unfold transfer at h ⊢
  simp only at h ⊢
  repeat' split
  all_goals simp_all [reply, Op.isRead]


theorem updateProfile_rejected (db : Db) (uid : Nat) (body : Body)
    (h : (updateProfile db uid body).res.status = 400 ∨
      (updateProfile db uid body).res.status = 404) :
    (updateProfile db uid body).db = db ∧
      ∀ op ∈ (updateProfile db uid body).ops, op.isRead = true := by
  unfold updateProfile at h ⊢
  simp only at h ⊢
  repeat' split
  all_goals simp_all [reply, Op.isRead]

theorem changePassword_rejected (env : Env) (db : Db) (uid : Nat) (body : Body)
    (h : (changePassword env db uid body).res.status = 400 ∨
      (changePassword env db uid body).res.status = 404) :
    (changePassword env db uid body).db = db ∧
      ∀ op ∈ (changePassword env db uid body).ops, op.isRead = true := by
  unfold changePassword at h ⊢
  simp only at h ⊢
  repeat' split
  all_goals simp_all [reply, Op.isRead]

/-- Claim C18: whenever deposit, withdraw or transfer (or either of the two other
account routes) answers 400 or 404, the users and the transactions are exactly
what they were before the request, and the handler performed no save and no
create: only queries precede the rejection. -/
theorem rejection_atomic (env : Env) (db : Db) (uid : Nat) (route : Route) (body : Body)
    (h : (handle env db uid route body).res.status = 400 ∨
      (handle env db uid route body).res.status = 404) :
    (handle env db uid route body).db = db ∧
      ∀ op ∈ (handle env db uid route body).ops, op.isRead = true := by
  cases route with
  | deposit => exact deposit_rejected db uid body h
  | withdraw => exact withdraw_rejected db uid body h
  | transfer => exact transfer_rejected env db uid body h
  | updateProfile => exact updateProfile_rejected db uid body h
  | changePassword => exact changePassword_rejected env db uid body h

theorem rejection_atomic_witness :
    (handle sampleEnv sampleDb 1 Route.transfer
        { recipientEmailOrAccount := JsValue.string "nobody@x.com",
          amount := JsValue.number (JSNum.fin 50) }).db = sampleDb ∧
    (Op.findOne "nobody@x.com" "nobody@x.com").isRead = true :=
  have h := rejection_atomic sampleEnv sampleDb 1 Route.transfer
    { recipientEmailOrAccount := JsValue.string "nobody@x.com",
      amount := JsValue.number (JSNum.fin 50) } (Or.inr (by decide))
  ⟨h.1, h.2 _ (List.Mem.tail _ (List.Mem.head _))⟩

/-! ## Registration: duplicate email and account numbers -/

theorem AuthBody.allPresent_eq (body : AuthBody) :
    (!body.name.toBoolean || !body.email.toBoolean || !body.phone.toBoolean ||
      !body.accountType.toBoolean || !body.password.toBoolean ||
      !body.confirmPassword.toBoolean) = !body.allPresent := by
  unfold AuthBody.allPresent
  cases body.name.toBoolean <;> cases body.email.toBoolean <;> cases body.phone.toBoolean <;>
    cases body.accountType.toBoolean <;> cases body.password.toBoolean <;>
    cases body.confirmPassword.toBoolean <;> rfl

/-- Claim C12, amended: a registration whose email, lower-cased, is the stored
email of an account is answered 400 and leaves the store as it was, whatever
the other fields and the generator's candidates.  The message is that of the
first check that fails: 'All fields are required' when one of the six fields is
falsy, else 'Invalid email format', else 'Password must be at least 6
characters', else 'Passwords do not match', and 'Email already registered' when
these four checks pass. -/
theorem register_duplicate_email (env : AuthEnv) (db : Db) (newId : Nat)
    (candidates : List String) (body : AuthBody) (e : String) (u : User)
    (he : body.email = JsValue.string e) (hu : u ∈ db.users)
    (hstored : u.email = env.toLowerCase e) :
    ∃ out, register env db newId candidates body = some out ∧
      out.res.status = 400 ∧ out.db = db ∧
      (body.allPresent = false → out.res = authReply 400 "All fields are required") ∧
      (body.allPresent = true → emailRegexTest body.email = false →
        out.res = authReply 400 "Invalid email format") ∧
      (body.allPresent = true → emailRegexTest body.email = true →
        lengthBelow6 body.password = true →
        out.res = authReply 400 "Password must be at least 6 characters") ∧
      (body.allPresent = true → emailRegexTest body.email = true →
        lengthBelow6 body.password = false →
        strictNe body.password body.confirmPassword = true →
        out.res = authReply 400 "Passwords do not match") ∧
      (body.allPresent = true → emailRegexTest body.email = true →
        lengthBelow6 body.password = false →
        strictNe body.password body.confirmPassword = false →
        out.res = authReply 400 "Email already registered") := by
  obtain ⟨v, hv⟩ := Db.findByEmail_isSome db (env.toLowerCase e) u hu hstored
  unfold register
  simp only [AuthBody.allPresent_eq]
  cases hp : body.allPresent with
  | false => exact ⟨_, rfl, rfl, rfl, by simp⟩
  | true =>
  cases hr : emailRegexTest body.email with
  | false => exact ⟨_, rfl, rfl, rfl, by simp⟩
  | true =>
  cases hl : lengthBelow6 body.password with
  | true => exact ⟨_, rfl, rfl, rfl, by simp⟩
  | false =>
  cases hs : strictNe body.password body.confirmPassword with
  | true => exact ⟨_, rfl, rfl, rfl, by simp⟩
  | false =>
  simp only [he, hv]
  exact ⟨_, rfl, rfl, rfl, by simp⟩

theorem register_duplicate_email_witness :
    ∃ out, register sampleAuthEnv sampleDb 3 ["KB000000000303"]
        { name := JsValue.string "Zed", email := JsValue.string "A@X.com",
          phone := JsValue.string "777", accountType := JsValue.string "savings",
          password := JsValue.string "secret", confirmPassword := JsValue.string "secret" } =
        some out ∧
      out.res.status = 400 ∧ out.db = sampleDb ∧
      out.res = authReply 400 "Email already registered" :=
  have ⟨out, h1, h2, h3, h4⟩ := register_duplicate_email sampleAuthEnv sampleDb 3
    ["KB000000000303"]
    { name := JsValue.string "Zed", email := JsValue.string "A@X.com",
      phone := JsValue.string "777", accountType := JsValue.string "savings",
      password := JsValue.string "secret", confirmPassword := JsValue.string "secret" }
    "A@X.com" asha rfl (by decide) (by decide)
  ⟨out, h1, h2, h3, h4.2.2.2.2 (by decide) (by decide) (by decide) (by decide)⟩

theorem Db.findByAccountNumber_some (db : Db) (a : String) (v : User)
    (h : db.findByAccountNumber a = some v) : ∃ u ∈ db.users, u.accountNumber = a :=
  ⟨v, List.mem_of_find?_eq_some h, by simpa using List.find?_some h⟩

/-- The retry loop returns the first candidate that no account holds: every
candidate before it is held by an account, and it is held by none. -/
theorem uniqueAccountNumber_first_free (db : Db) (cs : List String) (a : String)
    (h : uniqueAccountNumber db cs = some a) :
    ∃ taken later, cs = taken ++ a :: later ∧
      (∀ c ∈ taken, ∃ u ∈ db.users, u.accountNumber = c) ∧
      (∀ u ∈ db.users, u.accountNumber ≠ a) := by
  induction cs with
  | nil => simp [uniqueAccountNumber] at h
  | cons c rest ih =>
    unfold uniqueAccountNumber at h
    cases hc : db.findByAccountNumber c with
    | none =>
      simp only [hc] at h
      cases h
      exact ⟨[], rest, rfl, by simp, Db.findByAccountNumber_none db _ hc⟩
    | some v =>
      simp only [hc] at h
      obtain ⟨taken, later, hcs, htaken, hfree⟩ := ih h
      refine ⟨c :: taken, later, by rw [hcs]; rfl, ?_, hfree⟩
      intro d hd
      rcases List.mem_cons.1 hd with rfl | hd
      · exact Db.findByAccountNumber_some db _ v hc
      · exact htaken d hd

/-- Claim C13: when `register` answers 201 it appends one account, whose number is
the one the retry loop returned: a candidate of the generator that no existing
account holds, reached only after candidates that existing accounts do hold.
So account numbers that were pairwise distinct remain pairwise distinct, for
every sequence of candidates. -/
theorem register_account_number_first_free (env : AuthEnv) (db : Db) (newId : Nat)
    (candidates : List String) (body : AuthBody) (out : AuthOutcome)
    (h : register env db newId candidates body = some out) (h201 : out.res.status = 201) :
    ∃ user taken later, out.db.users = db.users ++ [user] ∧
      uniqueAccountNumber db candidates = some user.accountNumber ∧
      candidates = taken ++ user.accountNumber :: later ∧
      (∀ c ∈ taken, ∃ u ∈ db.users, u.accountNumber = c) ∧
      (∀ u ∈ db.users, u.accountNumber ≠ user.accountNumber) ∧
      ((db.users.map User.accountNumber).Nodup →
        (out.db.users.map User.accountNumber).Nodup) := by
  obtain ⟨e, n, p, kind, credential, accountNumber, _, _, _, _, hacc, husers, _⟩ :=
    register_created env db newId candidates body out h h201
  obtain ⟨taken, later, hcs, htaken, hfresh⟩ :=
    uniqueAccountNumber_first_free db candidates accountNumber hacc
  refine ⟨_, taken, later, husers, hacc, hcs, htaken, hfresh, ?_⟩
  intro hnodup
  rw [husers, List.map_append, List.nodup_append]
  refine ⟨hnodup, by simp, ?_⟩
  intro a ha hb
  simp only [List.map_cons, List.map_nil, List.mem_singleton] at hb
  obtain ⟨u, hu, rfl⟩ := List.mem_map.1 ha
  exact hfresh u hu hb

theorem register_account_number_first_free_witness :
    ∃ out user taken later,
      register sampleAuthEnv sampleDb 3 ["KB000000000101", "KB000000000303", "KB000000000404"]
        { name := JsValue.string " Zed ", email := JsValue.string "Zed@X.com",
          phone := JsValue.string "777", accountType := JsValue.string "savings",
          password := JsValue.string "secret",
          confirmPassword := JsValue.string "secret" } = some out ∧
      out.db.users = sampleDb.users ++ [user] ∧
      ["KB000000000101", "KB000000000303", "KB000000000404"] =
        taken ++ user.accountNumber :: later ∧
      (∀ c ∈ taken, ∃ u ∈ sampleDb.users, u.accountNumber = c) ∧
      (∀ u ∈ sampleDb.users, u.accountNumber ≠ user.accountNumber) :=
  have hsome : (register sampleAuthEnv sampleDb 3
      ["KB000000000101", "KB000000000303", "KB000000000404"]
      { name := JsValue.string " Zed ", email := JsValue.string "Zed@X.com",
        phone := JsValue.string "777", accountType := JsValue.string "savings",
        password := JsValue.string "secret",
        confirmPassword := JsValue.string "secret" }).isSome = true := by decide
  have ⟨user, taken, later, h1, _, h3, h4, h5, _⟩ :=
    register_account_number_first_free sampleAuthEnv sampleDb 3
      ["KB000000000101", "KB000000000303", "KB000000000404"]
      { name := JsValue.string " Zed ", email := JsValue.string "Zed@X.com",
        phone := JsValue.string "777", accountType := JsValue.string "savings",
        password := JsValue.string "secret", confirmPassword := JsValue.string "secret" }
      (Option.get _ hsome) (Option.some_get hsome).symm rfl
  ⟨Option.get _ hsome, user, taken, later, (Option.some_get hsome).symm, h1, h3, h4, h5⟩

/-! ## Passwords that are not strings -/

/-- Claim C14, at a password that is not a string: the number 123 has no `length`,
so the test `password.length < 6` is false and, being equal to confirmPassword,
it passes every validation of `register`.  With a fresh email the request is
answered 201 or 500 as the User model decides, never 400; with a model that
casts the number to a string the account is created with the credential
"123". -/
theorem register_numeric_password_accepted :
    lengthBelow6 (JsValue.number (JSNum.fin 123)) = false ∧
    strictNe (JsValue.number (JSNum.fin 123)) (JsValue.number (JSNum.fin 123)) = false ∧
    (∀ env : AuthEnv, ∃ out,
      register env { users := [], transactions := [] } 1 ["KB000000000101"]
        { name := JsValue.string "Zed", email := JsValue.string "zed@x.com",
          phone := JsValue.string "777", accountType := JsValue.string "savings",
          password := JsValue.number (JSNum.fin 123),
          confirmPassword := JsValue.number (JSNum.fin 123) } = some out ∧
      (out.res.status = 201 ∨ out.res.status = 500)) ∧
    (register castingAuthEnv sampleDb 3 ["KB000000000303"]
        { name := JsValue.string "Zed", email := JsValue.string "zed@x.com",
          phone := JsValue.string "777", accountType := JsValue.string "savings",
          password := JsValue.number (JSNum.fin 123),
          confirmPassword := JsValue.number (JSNum.fin 123) }).map
      (fun out => (out.res.status, out.db.users.map User.password)) =
      some (201, ["secret1", "secret2", "123"]) := by
  refine ⟨rfl, by decide, ?_, by decide⟩
  intro env
  have h1 : lengthBelow6 (JsValue.number (JSNum.fin 123)) = false := rfl
  have h2 : strictNe (JsValue.number (JSNum.fin 123)) (JsValue.number (JSNum.fin 123)) =
      false := by decide
  have h3 : (JsValue.number (JSNum.fin 123)).toBoolean = true := by decide
  have h4 : emailRegexTest (JsValue.string "zed@x.com") = true := by decide
  have h5 : ∀ s : String, s ≠ "" → (JsValue.string s).toBoolean = true := by
    intro s hs
    simpa [JsValue.toBoolean] using hs
  unfold register
  simp only [h1, h2, h3, h4, h5 "Zed" (by decide), h5 "zed@x.com" (by decide),
    h5 "777" (by decide), h5 "savings" (by decide)]
  simp only [Db.findByEmail, Db.findByAccountNumber, uniqueAccountNumber, Db.createUser,
    List.find?_nil, List.any_nil, Bool.not_true, Bool.or_self, Bool.false_eq_true, if_false]
  cases env.castAccountType (JsValue.string "savings") <;>
    cases env.storePassword (JsValue.number (JSNum.fin 123)) <;>
    simp [authReply]

/-! ## Password change -/

/-- Claim C16, at a new password that is not a string: the number 123 has no
`length`, so the test `newPassword.length < 6` is false; when the current
password verifies and the User model accepts the assignment, the request is
answered 200 and the credential is replaced, though newPassword has no length
of at least 6.  With a model that casts the number to a string the stored
credential becomes "123". -/
theorem changePassword_numeric_password_stored :
    lengthBelow6 (JsValue.number (JSNum.fin 123)) = false ∧
    (∀ (env : Env) (db : Db) (uid : Nat) (user : User) (current : JsValue)
        (credential : String),
      db.findById uid = some user → current.toBoolean = true →
      env.comparePassword current user.password = some true →
      env.storePassword (JsValue.number (JSNum.fin 123)) = some credential →
      (changePassword env db uid
          { currentPassword := current, newPassword := JsValue.number (JSNum.fin 123),
            confirmPassword := JsValue.number (JSNum.fin 123) }).res.status = 200 ∧
      (changePassword env db uid
          { currentPassword := current, newPassword := JsValue.number (JSNum.fin 123),
            confirmPassword := JsValue.number (JSNum.fin 123) }).db =
        db.save { user with password := credential }) ∧
    (changePassword castingAuthEnv.toEnv sampleDb 1
        { currentPassword := JsValue.string "secret1",
          newPassword := JsValue.number (JSNum.fin 123),
          confirmPassword := JsValue.number (JSNum.fin 123) }).res.status = 200 ∧
    ((changePassword castingAuthEnv.toEnv sampleDb 1
        { currentPassword := JsValue.string "secret1",
          newPassword := JsValue.number (JSNum.fin 123),
          confirmPassword := JsValue.number (JSNum.fin 123) }).db.findById 1).map
      User.password = some "123" := by
  refine ⟨rfl, ?_, by decide, by decide⟩
  intro env db uid user current credential hu hc hv hs
  have h2 : strictNe (JsValue.number (JSNum.fin 123)) (JsValue.number (JSNum.fin 123)) =
      false := by decide
  have h3 : (JsValue.number (JSNum.fin 123)).toBoolean = true := by decide
  have h1 : lengthBelow6 (JsValue.number (JSNum.fin 123)) = false := rfl
  simp [changePassword, hu, hc, hv, hs, h1, h2, h3, reply]

/-! ## The amount validated and the amount applied -/

theorem toNumber_hex16 : (JsValue.string "0x10").toNumber = JSNum.fin 16 := by
  have : stringToNumber "0x10" = JSNum.fin ((16 : ℕ) : ℚ) := by decide
  simpa [JsValue.toNumber] using this

theorem parseFloat_hex16 : (JsValue.string "0x10").parseFloat = JSNum.fin 0 :=
  parseFloat_hex ['1', '0']

theorem JSNum.fin_add_zero (q : ℚ) : (JSNum.fin q).add (JSNum.fin 0) = JSNum.fin q := by
  simp [JSNum.add]

theorem JSNum.fin_sub_zero (q : ℚ) : (JSNum.fin q).sub (JSNum.fin 0) = JSNum.fin q := by
  simp [JSNum.sub, JSNum.neg, JSNum.add]

theorem castNumber_fin (q : ℚ) : castNumber (JSNum.fin q) = some (JSNum.fin q) := rfl

/-- Claim C1, at two amounts the guard of `deposit` accepts.  The boolean `true`
passes the guard and the request is answered 500 with nothing stored.  The
string "0x10" passes the guard as the number 16 and the request is answered
200, but the amount added is parseFloat("0x10") = 0: balance and totalDeposited
are reported and stored as 500, not 516. -/
theorem deposit_accepted_not_credited :
    invalidAmount (JsValue.bool true) = false ∧
    (deposit sampleDb 1 { amount := JsValue.bool true }).res.status = 500 ∧
    (deposit sampleDb 1 { amount := JsValue.bool true }).db = sampleDb ∧
    invalidAmount (JsValue.string "0x10") = false ∧
    (JsValue.string "0x10").toNumber = JSNum.fin 16 ∧
    asha.balance = JSNum.fin 500 ∧
    (deposit sampleDb 1 { amount := JsValue.string "0x10" }).res.status = 200 ∧
    (deposit sampleDb 1 { amount := JsValue.string "0x10" }).res.balance =
      some (JSNum.fin 500) ∧
    (deposit sampleDb 1 { amount := JsValue.string "0x10" }).res.totalDeposited =
      some (JSNum.fin 500) ∧
    (deposit sampleDb 1 { amount := JsValue.string "0x10" }).db.users = sampleDb.users := by
  have hu : sampleDb.findById 1 = some asha := rfl
  have hb : asha.balance = JSNum.fin 500 := rfl
  have ht : asha.totalDeposited = JSNum.fin 500 := rfl
  refine ⟨by decide, by decide, by decide, invalidAmount_hex16, toNumber_hex16, rfl, ?_, ?_,
    ?_, ?_⟩ <;>
  · simp only [deposit, invalidAmount_hex16, parseFloat_hex16, hu, hb, ht, JSNum.fin_add_zero,
      castNumber_fin]
    rfl

/-- Claim C2, at an amount the guard of `withdraw` accepts: "0x10" is validated as
the number 16, which is at most the balance 500, and the request is answered
200; but the amount subtracted is parseFloat("0x10") = 0, so the balance is
reported and stored as 500, not 484, and totalWithdrawn as 0, not 16. -/
theorem withdraw_accepted_not_debited :
    invalidAmount (JsValue.string "0x10") = false ∧
    (JsValue.string "0x10").toNumber = JSNum.fin 16 ∧
    (JSNum.fin 16).le asha.balance = true ∧
    asha.balance = JSNum.fin 500 ∧ asha.totalWithdrawn = JSNum.fin 0 ∧
    (withdraw sampleDb 1 { amount := JsValue.string "0x10" }).res.status = 200 ∧
    (withdraw sampleDb 1 { amount := JsValue.string "0x10" }).res.balance =
      some (JSNum.fin 500) ∧
    (withdraw sampleDb 1 { amount := JsValue.string "0x10" }).res.totalWithdrawn =
      some (JSNum.fin 0) ∧
    (withdraw sampleDb 1 { amount := JsValue.string "0x10" }).db.users = sampleDb.users := by
  have hu : sampleDb.findById 1 = some asha := rfl
  have hb : asha.balance = JSNum.fin 500 := rfl
  have ht : asha.totalWithdrawn = JSNum.fin 0 := rfl
  have hlt : (JSNum.fin 500).lt (JSNum.fin 0) = false := by decide
  refine ⟨invalidAmount_hex16, toNumber_hex16, by decide, rfl, rfl, ?_, ?_, ?_, ?_⟩ <;>
  · simp only [withdraw, invalidAmount_hex16, parseFloat_hex16, hu, hb, ht, hlt,
      JSNum.fin_add_zero, JSNum.fin_sub_zero, castNumber_fin]
    rfl

/-- Claim C3, at an amount the guard of `withdraw` accepts: the account holds 0
and "0x10" is validated as the number 16, which is greater than the balance;
the request is not answered 400 'Insufficient balance' but 200, because the
balance is compared with parseFloat("0x10") = 0. -/
theorem withdraw_above_balance_accepted :
    invalidAmount (JsValue.string "0x10") = false ∧
    (JsValue.string "0x10").toNumber = JSNum.fin 16 ∧
    ben.balance = JSNum.fin 0 ∧
    ben.balance.lt (JSNum.fin 16) = true ∧
    (withdraw sampleDb 2 { amount := JsValue.string "0x10" }).res.status = 200 ∧
    (withdraw sampleDb 2 { amount := JsValue.string "0x10" }).res.message =
      "Withdrawal successful" := by
  have hu : sampleDb.findById 2 = some ben := rfl
  have hb : ben.balance = JSNum.fin 0 := rfl
  have ht : ben.totalWithdrawn = JSNum.fin 0 := rfl
  have hlt : (JSNum.fin 0).lt (JSNum.fin 0) = false := by decide
  refine ⟨invalidAmount_hex16, toNumber_hex16, rfl, by decide, ?_, ?_⟩ <;>
  · simp only [withdraw, invalidAmount_hex16, parseFloat_hex16, hu, hb, ht, hlt,
      JSNum.fin_add_zero, JSNum.fin_sub_zero, castNumber_fin]
    rfl

/-- Claim C4, at a successful transfer of an amount the guard accepts: "0x10" is
validated as the number 16 and the transfer from the account holding 500 to the
account holding 0 is answered 200, but the amount moved is parseFloat("0x10")
= 0: the sender still holds 500 and the recipient still holds 0, the totals are
unchanged, and the two records carry amount 0. -/
theorem transfer_accepted_not_moved :
    invalidAmount (JsValue.string "0x10") = false ∧
    (JsValue.string "0x10").toNumber = JSNum.fin 16 ∧
    (transfer sampleEnv sampleDb 1
        { recipientEmailOrAccount := JsValue.string "b@x.com",
          amount := JsValue.string "0x10" }).res.status = 200 ∧
    (transfer sampleEnv sampleDb 1
        { recipientEmailOrAccount := JsValue.string "b@x.com",
          amount := JsValue.string "0x10" }).db.users = sampleDb.users ∧
    (transfer sampleEnv sampleDb 1
        { recipientEmailOrAccount := JsValue.string "b@x.com",
          amount := JsValue.string "0x10" }).db.transactions =
      [transferRecord asha ben (JSNum.fin 0), transferRecord ben asha (JSNum.fin 0)] ∧
    asha.balance = JSNum.fin 500 ∧ ben.balance = JSNum.fin 0 := by
  have hu : sampleDb.findById 1 = some asha := rfl
  have hr : sampleDb.findOne (sampleEnv.toLowerCase "b@x.com") "b@x.com" = some ben := by
    decide
  have hid : ¬ ben.id = asha.id := by decide
  have hb : asha.balance = JSNum.fin 500 := rfl
  have ht : asha.totalWithdrawn = JSNum.fin 0 := rfl
  have hb2 : ben.balance = JSNum.fin 0 := rfl
  have ht2 : ben.totalDeposited = JSNum.fin 0 := rfl
  have hlt : (JSNum.fin 500).lt (JSNum.fin 0) = false := by decide
  have hk : (JsValue.string "b@x.com").toBoolean = true := by decide
  refine ⟨invalidAmount_hex16, toNumber_hex16, ?_, ?_, ?_, rfl, rfl⟩ <;>
  · simp only [transfer, invalidAmount_hex16, parseFloat_hex16, hu, hr, hid, hb, ht, hb2, ht2,
      hlt, hk, JSNum.fin_add_zero, JSNum.fin_sub_zero, castNumber_fin]
    rfl

end Kodbank
